import Mathlib

/-!
Verification development for the two source files of this repository:

* `codes/models/audio/tts/tacotron2/text/cleaners.py` — the mixed
  Urdu/English text-cleaning pipeline for a TTS front end;
* `codes/models/networks.py` — the string-keyed factory for generator,
  discriminator and feature-extractor networks.

Python strings are modelled as `List Char`.  The regular-expression
operations of the cleaner module are embedded by executable Lean
functions whose behaviour on the concrete regexes occurring in the
source (`\s+`, `\b<literal>\b`, character-class searches) is spelled out
in the comments next to each definition.
-/

namespace Cleaners

/-- Python whitespace: the character set matched by the class `\s` in an
`re` pattern over `str`, which on every character below coincides with
the set `str.split()` (no arguments) splits on.  Codepoints: TAB..CR,
FS..US (28–31), space, NEL (133), NBSP (160), U+1680, U+2000..U+200A,
U+2028, U+2029, U+202F, U+205F, U+3000. -/
def isPySpace (c : Char) : Bool :=
  decide (c.val = 32 ∨ c.val = 9 ∨ c.val = 10 ∨ c.val = 13 ∨ c.val = 11 ∨ c.val = 12 ∨
    (28 ≤ c.val ∧ c.val ≤ 31) ∨ c.val = 133 ∨ c.val = 160 ∨ c.val = 0x1680 ∨
    (0x2000 ≤ c.val ∧ c.val ≤ 0x200A) ∨ c.val = 0x2028 ∨ c.val = 0x2029 ∨
    c.val = 0x202F ∨ c.val = 0x205F ∨ c.val = 0x3000)

/-- Python `text.replace(old, new)` for single-character `old` and `new`:
every occurrence of the character `old` is replaced by `new`. -/
def replaceChar (old new : Char) (s : List Char) : List Char :=
  s.map fun c => if c = old then new else c

/-- Python `text.replace(ch, '')`: every occurrence of `ch` is removed. -/
def removeChar (x : Char) (s : List Char) : List Char :=
  s.filter fun c => !(c == x)

/-- The ASCII apostrophe, written by codepoint. -/
def apos : Char := Char.ofNat 39

/-- The table `_punctuation_replacements` of cleaners.py, in the source's
insertion order: Urdu full stop, Urdu comma, Urdu semicolon, Urdu question
mark, exclamation mark (mapped to itself), curly double quotes (both to a
straight double quote), curly single quotes (both to an apostrophe). -/
def punctuationReplacements : List (Char × Char) :=
  [('۔', '.'), ('،', ','), ('؛', ';'), ('؟', '?'), ('!', '!'),
   ('“', '"'), ('”', '"'), ('‘', apos), ('’', apos)]

/-- `normalize_punctuation` of cleaners.py: iterate `str.replace` over the
items of `_punctuation_replacements` in insertion order. -/
def normalize_punctuation (text : List Char) : List Char :=
  punctuationReplacements.foldl (fun t p => replaceChar p.1 p.2 t) text

/-- The list `_special_characters` of cleaners.py, by codepoint and in the
source's order: U+0602, U+0603, U+060F, U+060E, then U+0610..U+061A. -/
def specialCharacters : List Char :=
  [Char.ofNat 0x602, Char.ofNat 0x603, Char.ofNat 0x60F, Char.ofNat 0x60E,
   Char.ofNat 0x610, Char.ofNat 0x611, Char.ofNat 0x612, Char.ofNat 0x613,
   Char.ofNat 0x614, Char.ofNat 0x615, Char.ofNat 0x616, Char.ofNat 0x617,
   Char.ofNat 0x618, Char.ofNat 0x619, Char.ofNat 0x61A]

/-- `remove_special_characters` of cleaners.py: iterate
`text.replace(char, '')` over `_special_characters`. -/
def remove_special_characters (text : List Char) : List Char :=
  specialCharacters.foldl (fun t c => removeChar c t) text

/-- Modelled from the spec: `normalize_numbers_urdu`, imported by
cleaners.py from the module `numbers_urdu`, which is absent from the
repository snapshot.  The spec describes the step as numeral conversion:
"Convert Urdu numerals to Arabic numerals (1, 2, 3) and retain English
numbers", so each Urdu-script digit U+06F0..U+06F9 is mapped to the
corresponding ASCII digit and every other character is unchanged. -/
def normalize_numbers_urdu (t : List Char) : List Char :=
  t.map fun c =>
    if 0x6F0 ≤ c.val ∧ c.val ≤ 0x6F9 then Char.ofNat (48 + (c.val.toNat - 0x6F0)) else c

/-- Python word characters, as matched by `\b` boundaries of an `re`
pattern over `str`: ASCII alphanumerics and the underscore, plus every
other Unicode alphanumeric character.  Spelled out here for the Arabic
block U+0600–U+06FF (letters, digits and modifier letters of the block;
U+0670 is a combining mark and the block's punctuation, signs and
combining marks are not word characters) and for ASCII; no character
outside these ranges is fed to a `\b` test by this development. -/
def isWordChar (c : Char) : Bool :=
  decide ((97 ≤ c.val ∧ c.val ≤ 122) ∨ (65 ≤ c.val ∧ c.val ≤ 90) ∨
    (48 ≤ c.val ∧ c.val ≤ 57) ∨ c.val = 95 ∨
    (0x621 ≤ c.val ∧ c.val ≤ 0x64A) ∨ (0x660 ≤ c.val ∧ c.val ≤ 0x669) ∨
    (0x66E ≤ c.val ∧ c.val ≤ 0x6D3 ∧ c.val ≠ 0x670) ∨ c.val = 0x6D5 ∨
    c.val = 0x6E5 ∨ c.val = 0x6E6 ∨ (0x6EE ≤ c.val ∧ c.val ≤ 0x6FC) ∨ c.val = 0x6FF)

/-- Whether an optional character (a position just outside the string, or
the character adjacent to a match candidate) is a word character; a string
edge counts as a non-word position. -/
def wordAt : Option Char → Bool
  | Option.none => false
  | some c => isWordChar c

/-- The `\b` assertion of Python `re` between two adjacent positions:
a boundary holds exactly when the two sides disagree on wordness. -/
def atBoundary (l r : Option Char) : Bool := wordAt l != wordAt r

/-- One pass of Python `re.sub(r'\b' + lit + r'\b', rep, s)` for a literal
pattern `lit`: scan left to right; at each position, match `lit` when it
is a prefix of the remaining input and `\b` holds on both sides; replace
the (non-overlapping) match and resume scanning after it.  `prev` is the
character just before the current position and `fuel` bounds the number
of scanning steps; each step consumes at least one input character, so
`fuel = s.length` always suffices and the fuel-exhausted arm is never
reached from `reSubWB`. -/
def reSubWBFuel (pat rep : List Char) : Nat → Option Char → List Char → List Char
  | 0, _, s => s
  | _ + 1, _, [] => []
  | n + 1, prev, c :: cs =>
    if !pat.isEmpty && pat.isPrefixOf (c :: cs) && atBoundary prev pat.head? &&
        atBoundary pat.getLast? (List.drop pat.length (c :: cs)).head? then
      rep ++ reSubWBFuel pat rep n pat.getLast? (List.drop pat.length (c :: cs))
    else
      c :: reSubWBFuel pat rep n (some c) cs

/-- Python `re.sub` for a `\b`-delimited literal pattern, starting at the
left edge of the string. -/
def reSubWB (pat rep s : List Char) : List Char :=
  reSubWBFuel pat rep s.length Option.none s

/-- The table `_abbreviations_urdu` of cleaners.py, in source order: each
entry is the literal inside the `\b...\b` pattern together with its
replacement.  The `re.IGNORECASE` flag on the source patterns has no
effect, as the Urdu script has no case. -/
def abbreviationsUrdu : List (List Char × List Char) :=
  [("جناب".toList, "جناب محترم".toList),
   ("ڈاکٹر".toList, "ڈاکٹر".toList),
   ("محترمہ".toList, "محترمہ".toList),
   ("پروف".toList, "پروفیسر".toList),
   ("ایم ایل اے".toList, "رکن صوبائی اسمبلی".toList),
   ("ایم این اے".toList, "رکن قومی اسمبلی".toList)]

/-- `expand_abbreviations_urdu` of cleaners.py: iterate `re.sub` over the
abbreviation table in order. -/
def expand_abbreviations_urdu (text : List Char) : List Char :=
  abbreviationsUrdu.foldl (fun t p => reSubWB p.1 p.2 t) text

/-- Modelled from the spec: the external `unidecode` library ("For
English transliteration"), which maps each codepoint to an ASCII string:
the identity on ASCII input.  No theorem below depends on its table for
non-ASCII characters (both sides of every refinement share this
definition); unmapped codepoints transliterate to the empty string, as in
the library's default. -/
def unidecodeChar (c : Char) : List Char :=
  if c.val ≤ 127 then [c] else []

/-- Modelled from the spec: `unidecode` applied to a word, codepoint by
codepoint. -/
def unidecode (w : List Char) : List Char :=
  (w.map unidecodeChar).flatten

/-- `_urdu_regex.search(word)` of cleaners.py: the pattern
`[؀-ۿ]+` finds a match exactly when some character of the word
lies in the Arabic block U+0600–U+06FF. -/
def hasUrduChar (w : List Char) : Bool :=
  w.any fun c => decide (0x600 ≤ c.val ∧ c.val ≤ 0x6FF)

/-- `_english_regex.search(word)` of cleaners.py: the pattern `[a-zA-Z]+`
finds a match exactly when some character of the word is a Latin
letter. -/
def hasEnglishChar (w : List Char) : Bool :=
  w.any fun c => decide ((97 ≤ c.val ∧ c.val ≤ 122) ∨ (65 ≤ c.val ∧ c.val ≤ 90))

/-- The per-word body of the loop in `process_mixed_language`: the Urdu
branch (numeral normalization, then abbreviation expansion) when the Urdu
regex matches, otherwise the `unidecode` branch when the English regex
matches, otherwise the word unchanged. -/
def processWord (w : List Char) : List Char :=
  if hasUrduChar w then expand_abbreviations_urdu (normalize_numbers_urdu w)
  else if hasEnglishChar w then unidecode w
  else w

/-- Python `text.split()` with no arguments: split on runs of whitespace,
discarding empty fields (so leading and trailing whitespace produce no
fields).  `cur` accumulates the current field in reverse. -/
def pySplitAux : List Char → List Char → List (List Char)
  | cur, [] => if cur.isEmpty then [] else [cur.reverse]
  | cur, c :: cs =>
    if isPySpace c then
      if cur.isEmpty then pySplitAux [] cs else cur.reverse :: pySplitAux [] cs
    else
      pySplitAux (c :: cur) cs

/-- Python `text.split()`. -/
def pySplit (t : List Char) : List (List Char) :=
  pySplitAux [] t

/-- Python `' '.join(words)`. -/
def joinWords (ws : List (List Char)) : List Char :=
  List.intercalate [' '] ws

/-- `process_mixed_language` of cleaners.py: split on whitespace, process
each word with the language dispatch, rejoin with single spaces. -/
def process_mixed_language (text : List Char) : List Char :=
  joinWords ((pySplit text).map processWord)

/-- The body of `collapse_whitespace`, that is
`re.sub(_whitespace_re, ' ', text)` with `_whitespace_re = r'\s+'`:
scanning left to right, every maximal run of whitespace characters is one
greedy match of the pattern and is replaced by a single space.  `inRun`
records whether the previous input character belonged to the whitespace
run currently being replaced. -/
def collapseAux (inRun : Bool) : List Char → List Char
  | [] => []
  | c :: cs =>
    if isPySpace c then
      if inRun then collapseAux true cs else ' ' :: collapseAux true cs
    else
      c :: collapseAux false cs

/-- `collapse_whitespace` of cleaners.py. -/
def collapse_whitespace (text : List Char) : List Char :=
  collapseAux false text

/-- `humanize_mixed_cleaners` of cleaners.py: punctuation normalization,
then special-character removal, then mixed-language word processing, then
whitespace collapse. -/
def humanize_mixed_cleaners (text : List Char) : List Char :=
  collapse_whitespace
    (process_mixed_language (remove_special_characters (normalize_punctuation text)))

/-! Spec-side definitions for the cleaner claims, written from the
claims' words, to be compared with the source-derived definitions
above. -/

/-- Written from claim C6's words: the pointwise character table of the
punctuation mapping — Urdu full stop to a period, Urdu comma to a comma,
Urdu semicolon to a semicolon, Urdu question mark to a question mark,
curly double quotes to a straight double quote, curly single quotes to an
apostrophe, everything else unchanged. -/
def punctMapSpec (c : Char) : Char :=
  if c = '۔' then '.'
  else if c = '،' then ','
  else if c = '؛' then ';'
  else if c = '؟' then '?'
  else if c = '“' then '"'
  else if c = '”' then '"'
  else if c = '‘' then apos
  else if c = '’' then apos
  else c

/-- Written from claim C7's words: a word containing any character in
U+0600–U+06FF takes the Urdu branch (numeral normalization then
abbreviation expansion) even if it also contains Latin letters; a word
containing Latin letters but no Arabic-script character is transliterated
via unidecode; a word containing neither is unchanged. -/
def processWordSpec (w : List Char) : List Char :=
  if hasUrduChar w then expand_abbreviations_urdu (normalize_numbers_urdu w)
  else if hasEnglishChar w && !hasUrduChar w then unidecode w
  else w

/-- Written from claim C1's words: the composition the claim asserts the
pipeline to equal — punctuation mapping first, then abbreviation
expansion, then numeral conversion, then whitespace collapse last. -/
def claimedCleanerComposition (t : List Char) : List Char :=
  collapse_whitespace
    (normalize_numbers_urdu (expand_abbreviations_urdu (normalize_punctuation t)))

/-- Written from the amended claim C1's words: punctuation mapping first,
then special-character removal, then per-word mixed-language processing
(for each whitespace-separated word: numeral conversion then abbreviation
expansion when the word has an Arabic-script character, ASCII
transliteration when it has a Latin letter and no Arabic-script
character, unchanged otherwise), then whitespace collapse last. -/
def amendedCleanerComposition (t : List Char) : List Char :=
  collapse_whitespace
    (joinWords ((pySplit (remove_special_characters (normalize_punctuation t))).map
      processWordSpec))

end Cleaners

namespace Networks

/-- Python configuration values manipulated by `networks.py`.  `vnone` is
Python `None`; `float` is the exact rational value of a float literal
(the module only writes `1.0`); `emptyList` is the literal `[]`, the only
list this module itself constructs (the `attn_layers` default); `vdiv` is
the symbolic result of Python true division, whose numeric value no claim
inspects. -/
inductive Value where
  | vnone
  | int (n : Int)
  | str (s : String)
  | bool (b : Bool)
  | float (num den : Int)
  | emptyList
  | vdiv (a b : Value)
  deriving DecidableEq

/-- A Python dict with string keys: an insertion-ordered association list
with unique keys. -/
abbrev Dict := List (String × Value)

/-- Dict lookup, `d[k]` as a partial operation. -/
def dlookup (d : Dict) (k : String) : Option Value :=
  match d with
  | [] => Option.none
  | (k1, v1) :: t => if k1 = k then some v1 else dlookup t k

/-- Python `k in d.keys()`. -/
def containsKey (d : Dict) (k : String) : Bool :=
  (dlookup d k).isSome

/-- Python `d[k] = v`: an existing key keeps its position and gets the
new value; a new key is appended at the end. -/
def dset (d : Dict) (k : String) (v : Value) : Dict :=
  match d with
  | [] => [(k, v)]
  | (k1, v1) :: t => if k1 = k then (k1, v) :: t else (k1, v1) :: dset t k v

/-- The Python exceptions `networks.py` can raise: `KeyError` from a dict
subscript, the explicit `NotImplementedError`, and `TypeError` (from
`'RRDBNet' in which_model` on a non-string, or `None / 128`). -/
inductive PyErr where
  | keyError (k : String)
  | notImplemented
  | typeError
  deriving DecidableEq

/-- Sequencing of fallible Python evaluation steps. -/
def ebind {α β : Type} (x : Except PyErr α) (f : α → Except PyErr β) :
    Except PyErr β :=
  match x with
  | .error e => .error e
  | .ok a => f a

/-- Mapping over a fallible step. -/
def emap {α β : Type} (f : α → β) (x : Except PyErr α) : Except PyErr β :=
  match x with
  | .error e => .error e
  | .ok a => .ok (f a)

/-- The dict subscript `d[k]`: the value when the key is present,
`KeyError` otherwise. -/
def need (d : Dict) (k : String) : Except PyErr Value :=
  match dlookup d k with
  | some v => .ok v
  | Option.none => .error (.keyError k)

/-- A sequence of dict subscripts, evaluated left to right as Python
evaluates keyword arguments; the first missing key raises. -/
def needs (d : Dict) : List String → Except PyErr (List Value)
  | [] => .ok []
  | k :: ks => ebind (need d k) fun v => ebind (needs d ks) fun vs => .ok (v :: vs)

/-- Python `d[k] if k in d.keys() else v0`. -/
def getDefault (d : Dict) (k : String) (v0 : Value) : Value :=
  match dlookup d k with
  | some v => v
  | Option.none => v0

/-- Substring test on character lists (an empty needle always occurs). -/
def strContainsAux (needle : List Char) : List Char → Bool
  | [] => needle.isEmpty
  | c :: t => needle.isPrefixOf (c :: t) || strContainsAux needle t

/-- Python `needle in hay` on strings: the substring test. -/
def strContains (hay needle : String) : Bool :=
  strContainsAux needle.toList hay.toList

/-- Python true division of a configuration value by an integer literal,
kept symbolic: dividing a numeric value succeeds and produces the
symbolic quotient, while `None / 128` (or a string, a list, ...) raises
`TypeError`. -/
def pydivInt (v : Value) (d : Int) : Except PyErr Value :=
  match v with
  | .int n => .ok (.vdiv (.int n) (.int d))
  | .float a b => .ok (.vdiv (.float a b) (.int d))
  | .vdiv a b => .ok (.vdiv (.vdiv a b) (.int d))
  | _ => .error .typeError

/-- The three body-block classes selectable in the RRDBNet branch of
`define_G`. -/
inductive RRDBBlock where
  | RRDB
  | RRDBWithBypass
  | LambdaRRDB
  deriving DecidableEq

/-- Constructor-call descriptors for the generator architectures.  Each
constructor records one call site of `define_G`; an `args` field lists
the configuration values passed, in the call's keyword order (literal
constant arguments are noted in `define_G`'s comments, not stored).
`RRDBNetHeadless` is the `RRDBNet_arch.RRDBNet` call of the
`rrdb_centipede` branch (with `headless=True`), `RRDBNetSrflow` the
`RRDBNet` class of `models.archs.srflow_orig`, and
`SRG2ClassicGenerator` the `ConfigurableSwitchedResidualGenerator2` class
of `models.archs.srg2_classic`. -/
inductive NetG where
  | MSRResNet (args : List Value)
  | RRDBNet (in_channels out_channels mid_channels num_blocks additive_mode
      output_mode : Value) (body_block : RRDBBlock)
      (scale growth_channels initial_stride : Value)
  | MultiResRRDBNet (args : List Value)
  | PixelShufflingSteppedResRRDBNet (args : List Value)
  | RCAN (args : Dict)
  | PANET (args : Dict)
  | ConfigurableSwitchedResidualGenerator2 (args : List Value) (upsample_factor : Value)
  | SRG2ClassicGenerator (args : List Value) (upsample_factor : Value)
  | SPSRNet (args : List Value)
  | SPSRNetSimplified (args : List Value)
  | SwitchedSpsr (args : List Value)
  | Spsr7 (args : List Value)
  | FlowNet2 (checkpoint : Bool) (load_path : Option Value)
  | BackboneEncoder (pretrained_backbone : Value)
  | BackboneEncoderNoRef (pretrained_backbone : Value)
  | BackboneSpinenetNoHead
  | BackboneResnet
  | TecoGen (nf scale : Value)
  | StyleGan2GeneratorWithLatent (image_size latent_dim style_depth
      structure_input attn_layers : Value)
  | SRFlowNet (args : List Value)
  | SRFlowNetOrig (args : List Value) (opt : Dict)
  | RRDBLatentWrapper (args : List Value)
  | RRDBNetHeadless (args : List Value)
  | RRDBNetSrflow (args : List Value)
  | MDCN (scale : Value)
  deriving DecidableEq

/-- The name of the constructor call a `NetG` descriptor records. -/
def NetG.ctorName : NetG → String
  | MSRResNet .. => "MSRResNet"
  | RRDBNet .. => "RRDBNet"
  | MultiResRRDBNet .. => "MultiResRRDBNet"
  | PixelShufflingSteppedResRRDBNet .. => "PixelShufflingSteppedResRRDBNet"
  | RCAN .. => "RCAN"
  | PANET .. => "PANET"
  | ConfigurableSwitchedResidualGenerator2 .. => "ConfigurableSwitchedResidualGenerator2"
  | SRG2ClassicGenerator .. => "SRG2ClassicGenerator"
  | SPSRNet .. => "SPSRNet"
  | SPSRNetSimplified .. => "SPSRNetSimplified"
  | SwitchedSpsr .. => "SwitchedSpsr"
  | Spsr7 .. => "Spsr7"
  | FlowNet2 .. => "FlowNet2"
  | BackboneEncoder .. => "BackboneEncoder"
  | BackboneEncoderNoRef .. => "BackboneEncoderNoRef"
  | BackboneSpinenetNoHead => "BackboneSpinenetNoHead"
  | BackboneResnet => "BackboneResnet"
  | TecoGen .. => "TecoGen"
  | StyleGan2GeneratorWithLatent .. => "StyleGan2GeneratorWithLatent"
  | SRFlowNet .. => "SRFlowNet"
  | SRFlowNetOrig .. => "SRFlowNetOrig"
  | RRDBLatentWrapper .. => "RRDBLatentWrapper"
  | RRDBNetHeadless .. => "RRDBNetHeadless"
  | RRDBNetSrflow .. => "RRDBNetSrflow"
  | MDCN .. => "MDCN"

/-- The body of `define_G` once `which_model_G` is known to be the string
`m` and the upsample factor `scale` has been resolved.  Branch order and
the evaluation order of every dict subscript follow the source; literal
constant arguments (`in_nc=3`, `fp16=False`, ...) are noted in comments.
The second component of the result is the final state of `opt_net`
(mutated only by the `rcan` and `panet` branches).  The `torch.load`
calls of the `flownet2` branch are external file I/O and are not
modelled; the branch records the checkpoint flag and load path. -/
def define_G_str (m : String) (scale : Value) (opt opt_net : Dict) :
    Except PyErr NetG × Dict :=
  if m == "MSRResNet" then
    -- in_nc, out_nc, nf, nb, upscale=opt_net['scale']
    (emap NetG.MSRResNet (needs opt_net ["in_nc", "out_nc", "nf", "nb", "scale"]), opt_net)
  else if strContains m "RRDBNet" then
    let block := if m == "RRDBNetBypass" then RRDBBlock.RRDBWithBypass
      else if m == "RRDBNetLambda" then RRDBBlock.LambdaRRDB
      else RRDBBlock.RRDB
    let additive_mode := getDefault opt_net "additive_mode" (Value.str "not")
    let output_mode := getDefault opt_net "output_mode" (Value.str "hq_only")
    let gc := getDefault opt_net "gc" (Value.int 32)
    let initial_stride := getDefault opt_net "initial_stride" (Value.int 1)
    (ebind (need opt_net "in_nc") fun a =>
     ebind (need opt_net "out_nc") fun b =>
     ebind (need opt_net "nf") fun c =>
     ebind (need opt_net "nb") fun d =>
     ebind (need opt_net "scale") fun e =>
     Except.ok (NetG.RRDBNet a b c d additive_mode output_mode block e gc initial_stride),
     opt_net)
  else if m == "multires_rrdb" then
    (emap NetG.MultiResRRDBNet
      (needs opt_net ["in_nc", "out_nc", "nf", "l1", "l2", "l3", "gc", "scale"]), opt_net)
  else if m == "twostep_rrdb" then
    (emap NetG.PixelShufflingSteppedResRRDBNet
      (needs opt_net ["in_nc", "out_nc", "nf", "l1", "l2", "gc", "scale"]), opt_net)
  else if m == "rcan" then
    let d1 := dset (dset opt_net "rgb_range" (Value.int 255)) "n_colors" (Value.int 3)
    (Except.ok (NetG.RCAN d1), d1)
  else if m == "panet" then
    let d1 := dset (dset opt_net "rgb_range" (Value.int 255)) "n_colors" (Value.int 3)
    (Except.ok (NetG.PANET d1), d1)
  else if m == "ConfigurableSwitchedResidualGenerator2" then
    (emap (fun vs => NetG.ConfigurableSwitchedResidualGenerator2 vs scale)
      (needs opt_net ["switch_depth", "switch_filters", "switch_reductions",
        "switch_processing_layers", "trans_counts", "trans_kernel_sizes", "trans_layers",
        "transformation_filters", "attention_norm", "temperature",
        "temperature_final_step", "heightened_temp_min", "heightened_final_step",
        "add_noise", "for_video"]), opt_net)
  else if m == "srg2classic" then
    (emap (fun vs => NetG.SRG2ClassicGenerator vs scale)
      (needs opt_net ["switch_depth", "switch_filters", "switch_reductions",
        "switch_processing_layers", "trans_counts", "trans_kernel_sizes", "trans_layers",
        "transformation_filters", "temperature", "temperature_final_step",
        "heightened_temp_min", "heightened_final_step", "add_noise"]), opt_net)
  else if m == "spsr" then
    (emap NetG.SPSRNet (needs opt_net ["in_nc", "out_nc", "nf", "nb", "scale"]), opt_net)
  else if m == "spsr_net_improved" then
    (emap NetG.SPSRNetSimplified
      (needs opt_net ["in_nc", "out_nc", "nf", "nb", "scale"]), opt_net)
  else if m == "spsr_switched" then
    -- in_nc=3; nf, upscale=opt_net['scale'], init_temperature=opt_net['temperature']
    (emap NetG.SwitchedSpsr (needs opt_net ["nf", "scale", "temperature"]), opt_net)
  else if m == "spsr7" then
    -- in_nc=3, out_nc=3; defaults computed first, as in the source
    let recurrent := getDefault opt_net "recurrent" (Value.bool false)
    let xforms := getDefault opt_net "num_transforms" (Value.int 8)
    (ebind (need opt_net "nf") fun nf =>
     ebind (need opt_net "scale") fun sc =>
     let mred := getDefault opt_net "multiplexer_reductions" (Value.int 3)
     let temp := getDefault opt_net "temperature" (Value.int 10)
     Except.ok (NetG.Spsr7 [nf, xforms, sc, mred, temp, recurrent]), opt_net)
  else if m == "flownet2" then
    -- args: fp16=False, rgb_max=1.0, checkpoint=not ld
    let ld := containsKey opt_net "load_path"
    (Except.ok (NetG.FlowNet2 (!ld)
      (if ld then dlookup opt_net "load_path" else Option.none)), opt_net)
  else if m == "backbone_encoder" then
    (emap NetG.BackboneEncoder (need opt_net "pretrained_spinenet"), opt_net)
  else if m == "backbone_encoder_no_ref" then
    (emap NetG.BackboneEncoderNoRef (need opt_net "pretrained_spinenet"), opt_net)
  else if m == "backbone_encoder_no_head" then
    (Except.ok NetG.BackboneSpinenetNoHead, opt_net)
  else if m == "backbone_resnet" then
    (Except.ok NetG.BackboneResnet, opt_net)
  else if m == "tecogen" then
    (ebind (need opt_net "nf") fun nf =>
     ebind (need opt_net "scale") fun sc =>
     Except.ok (NetG.TecoGen nf sc), opt_net)
  else if m == "stylegan2" then
    let structured := getDefault opt_net "structured" (Value.bool false)
    let attn := getDefault opt_net "attn_layers" Value.emptyList
    (ebind (need opt_net "image_size") fun a =>
     ebind (need opt_net "latent_dim") fun b =>
     ebind (need opt_net "style_depth") fun c =>
     Except.ok (NetG.StyleGan2GeneratorWithLatent a b c structured attn), opt_net)
  else if m == "srflow" then
    -- in_nc=3, out_nc=3; hidden_channels reads opt_net['nf'] a second time
    (emap NetG.SRFlowNet
      (needs opt_net ["nf", "nb", "quant", "rrdb_block_maps", "noise_quant", "nf",
        "K", "L", "rrdb_train_step", "hr_shape", "scale"]), opt_net)
  else if m == "srflow_orig" then
    -- in_nc=3, out_nc=3; the whole opt dict is passed through
    (emap (fun vs => NetG.SRFlowNetOrig vs opt)
      (needs opt_net ["nf", "nb", "scale", "K"]), opt_net)
  else if m == "rrdb_latent_wrapper" then
    (emap NetG.RRDBLatentWrapper
      (needs opt_net ["in_nc", "out_nc", "nf", "nb", "with_bypass", "blocks_for_latent",
        "scale", "pretrain_path"]), opt_net)
  else if m == "rrdb_centipede" then
    -- headless=True
    let output_mode := getDefault opt_net "output_mode" (Value.str "hq_only")
    (emap (fun vs => NetG.RRDBNetHeadless (vs ++ [output_mode]))
      (needs opt_net ["in_nc", "out_nc", "nf", "nb", "scale"]), opt_net)
  else if m == "rrdb_srflow" then
    (emap NetG.RRDBNetSrflow
      (needs opt_net ["in_nc", "out_nc", "nf", "nb", "scale", "initial_stride"]), opt_net)
  else if m == "mdcn" then
    -- args: n_colors=3, rgb_range=1.0
    (emap NetG.MDCN (need opt_net "scale"), opt_net)
  else
    (Except.error PyErr.notImplemented, opt_net)

/-- The dispatch of `define_G` on the `which_model_G` value.  For a
non-string value every `==` comparison is false and the test
`'RRDBNet' in which_model` then raises `TypeError`. -/
def define_G_branch (wm scale : Value) (opt opt_net : Dict) :
    Except PyErr NetG × Dict :=
  match wm with
  | .str m => define_G_str m scale opt opt_net
  | _ => (.error .typeError, opt_net)

/-- Lines 30–31 of `define_G`: `if scale is None: scale = opt['scale']`.
The Lean parameter `Option.none` models the Python argument `None`. -/
def resolveScale (opt : Dict) (scale0 : Option Value) : Except PyErr Value :=
  match scale0 with
  | some v => Except.ok v
  | Option.none => need opt "scale"

/-- `define_G(opt, opt_net, scale)` of `networks.py`.  The result pairs
the returned network (or the exception raised) with the final state of
the `opt_net` dictionary. -/
def define_G (opt opt_net : Dict) (scale0 : Option Value) :
    Except PyErr NetG × Dict :=
  match resolveScale opt scale0 with
  | .error e => (.error e, opt_net)
  | .ok sc =>
    match dlookup opt_net "which_model_G" with
    | Option.none => (.error (.keyError "which_model_G"), opt_net)
    | some wm => define_G_branch wm sc opt opt_net

/-- Constructor-call descriptors for the discriminator architectures.
`Discriminator_VGG_128_GN_ckpt` is the `Discriminator_VGG_128_GN` call of
the checkpointed branch (with `do_checkpointing=True`);
`StyleGanDiscriminator128` records `StyleGanDiscriminator(128)`;
`ResNeXt50` records the torchvision `resnext50_32x4d` call with the
replaced final linear layer; the two augmentor constructors record the
`StyleGan2Augmentor` call wrapped around the inner discriminator, with
the inner and outer arguments listed in evaluation order. -/
inductive NetD where
  | Discriminator_VGG_128 (args : List Value)
  | Discriminator_VGG_128_GN (args : List Value)
  | Discriminator_VGG_128_GN_ckpt (args : List Value)
  | StyleGanDiscriminator128
  | FixupResnet34 (args : List Value) (input_img_size : Option Value)
  | FixupResnet50 (args : List Value) (input_img_size : Option Value)
  | ResNeXt50
  | BigGanDiscriminator
  | Discriminator_VGG_PixLoss (args : List Value)
  | Discriminator_UNet (args : List Value)
  | Discriminator_UNet_FeaOut (args : List Value)
  | Discriminator_switched (args : List Value)
  | CrossCompareDiscriminator (args : List Value)
  | RefDiscriminatorVgg128 (args : List Value)
  | PsnrApproximator (args : List Value)
  | StyleGan2Augmentor (args : List Value)
  | StyleGan2UnetAugmentor (args : List Value)
  | RRDBDiscriminator (args : List Value)
  | GradDiscWrapper (m : NetD)
  deriving DecidableEq

/-- The name of the constructor call a `NetD` descriptor records. -/
def NetD.ctorName : NetD → String
  | Discriminator_VGG_128 .. => "Discriminator_VGG_128"
  | Discriminator_VGG_128_GN .. => "Discriminator_VGG_128_GN"
  | Discriminator_VGG_128_GN_ckpt .. => "Discriminator_VGG_128_GN_ckpt"
  | StyleGanDiscriminator128 => "StyleGanDiscriminator128"
  | FixupResnet34 .. => "FixupResnet34"
  | FixupResnet50 .. => "FixupResnet50"
  | ResNeXt50 => "ResNeXt50"
  | BigGanDiscriminator => "BigGanDiscriminator"
  | Discriminator_VGG_PixLoss .. => "Discriminator_VGG_PixLoss"
  | Discriminator_UNet .. => "Discriminator_UNet"
  | Discriminator_UNet_FeaOut .. => "Discriminator_UNet_FeaOut"
  | Discriminator_switched .. => "Discriminator_switched"
  | CrossCompareDiscriminator .. => "CrossCompareDiscriminator"
  | RefDiscriminatorVgg128 .. => "RefDiscriminatorVgg128"
  | PsnrApproximator .. => "PsnrApproximator"
  | StyleGan2Augmentor .. => "StyleGan2Augmentor"
  | StyleGan2UnetAugmentor .. => "StyleGan2UnetAugmentor"
  | RRDBDiscriminator .. => "RRDBDiscriminator"
  | GradDiscWrapper .. => "GradDiscWrapper"

/-- `img_sz / 128`: raises `TypeError` when `img_sz` is still the `None`
default, otherwise the symbolic quotient. -/
def imgFactor (img_sz : Option Value) : Except PyErr Value :=
  match img_sz with
  | Option.none => .error .typeError
  | some v => pydivInt v 128

/-- The body of `define_D_net` once `which_model_D` is known to be the
string `m`.  Branch order and the evaluation order of every dict
subscript follow the source; literal constant arguments are noted in
comments. -/
def define_D_str (m : String) (img_sz : Option Value) (wrap : Bool)
    (opt_net : Dict) : Except PyErr NetD :=
  if m == "discriminator_vgg_128" then
    -- in_nc, nf, input_img_factor=img_sz/128, extra_conv
    ebind (need opt_net "in_nc") fun a =>
    ebind (need opt_net "nf") fun b =>
    ebind (imgFactor img_sz) fun f =>
    ebind (need opt_net "extra_conv") fun e =>
    Except.ok (NetD.Discriminator_VGG_128 [a, b, f, e])
  else if m == "discriminator_vgg_128_gn" then
    let extra_conv := getDefault opt_net "extra_conv" (Value.bool false)
    ebind (need opt_net "in_nc") fun a =>
    ebind (need opt_net "nf") fun b =>
    ebind (imgFactor img_sz) fun f =>
    let base := NetD.Discriminator_VGG_128_GN [a, b, f, extra_conv]
    Except.ok (if wrap then NetD.GradDiscWrapper base else base)
  else if m == "discriminator_vgg_128_gn_checkpointed" then
    -- do_checkpointing=True
    ebind (need opt_net "in_nc") fun a =>
    ebind (need opt_net "nf") fun b =>
    ebind (imgFactor img_sz) fun f =>
    Except.ok (NetD.Discriminator_VGG_128_GN_ckpt [a, b, f])
  else if m == "stylegan_vgg" then
    Except.ok NetD.StyleGanDiscriminator128
  else if m == "discriminator_resnet" then
    -- num_filters=nf, num_classes=1, input_img_size=img_sz
    emap (fun v => NetD.FixupResnet34 [v] img_sz) (need opt_net "nf")
  else if m == "discriminator_resnet_50" then
    emap (fun v => NetD.FixupResnet50 [v] img_sz) (need opt_net "nf")
  else if m == "resnext" then
    -- torchvision resnext50_32x4d with GroupNorm layers; fc replaced
    Except.ok NetD.ResNeXt50
  else if m == "biggan_resnet" then
    Except.ok NetD.BigGanDiscriminator
  else if m == "discriminator_pix" then
    emap NetD.Discriminator_VGG_PixLoss (needs opt_net ["in_nc", "nf"])
  else if m == "discriminator_unet" then
    emap NetD.Discriminator_UNet (needs opt_net ["in_nc", "nf"])
  else if m == "discriminator_unet_fea" then
    emap NetD.Discriminator_UNet_FeaOut (needs opt_net ["in_nc", "nf", "feature_mode"])
  else if m == "discriminator_switched" then
    emap NetD.Discriminator_switched
      (needs opt_net ["in_nc", "nf", "initial_temp", "final_temperature_step"])
  else if m == "cross_compare_vgg128" then
    ebind (need opt_net "in_nc") fun a =>
    let rc := getDefault opt_net "ref_channels" (Value.int 3)
    ebind (need opt_net "nf") fun b =>
    ebind (need opt_net "scale") fun c =>
    Except.ok (NetD.CrossCompareDiscriminator [a, rc, b, c])
  else if m == "discriminator_refvgg" then
    ebind (need opt_net "in_nc") fun a =>
    ebind (need opt_net "nf") fun b =>
    ebind (imgFactor img_sz) fun f =>
    Except.ok (NetD.RefDiscriminatorVgg128 [a, b, f])
  else if m == "psnr_approximator" then
    ebind (need opt_net "nf") fun b =>
    ebind (imgFactor img_sz) fun f =>
    Except.ok (NetD.PsnrApproximator [b, f])
  else if m == "stylegan2_discriminator" then
    -- inner: image_size, in_nc, attn; outer: image_size, augmentation_types, prob
    let attn := getDefault opt_net "attn_layers" Value.emptyList
    ebind (need opt_net "image_size") fun a =>
    ebind (need opt_net "in_nc") fun b =>
    ebind (need opt_net "image_size") fun c =>
    ebind (need opt_net "augmentation_types") fun d =>
    ebind (need opt_net "augmentation_probability") fun e =>
    Except.ok (NetD.StyleGan2Augmentor [a, b, attn, c, d, e])
  else if m == "stylegan2_unet" then
    ebind (need opt_net "image_size") fun a =>
    ebind (need opt_net "in_nc") fun b =>
    ebind (need opt_net "image_size") fun c =>
    ebind (need opt_net "augmentation_types") fun d =>
    ebind (need opt_net "augmentation_probability") fun e =>
    Except.ok (NetD.StyleGan2UnetAugmentor [a, b, c, d, e])
  else if m == "rrdb_disc" then
    -- blocks_per_checkpoint=3
    emap NetD.RRDBDiscriminator (needs opt_net ["in_nc", "nf", "nb"])
  else
    Except.error PyErr.notImplemented

/-- The dispatch of `define_D_net` on the `which_model_D` value: every
branch is an `==` comparison against a string, so a non-string value
falls through to the `NotImplementedError`. -/
def define_D_branch (wm : Value) (img_sz : Option Value) (wrap : Bool)
    (opt_net : Dict) : Except PyErr NetD :=
  match wm with
  | .str m => define_D_str m img_sz wrap opt_net
  | _ => .error .notImplemented

/-- `define_D_net(opt_net, img_sz, wrap)` of `networks.py`: lines
182–183 first override `img_sz` with `opt_net['image_size']` when that
key is present. -/
def define_D_net (opt_net : Dict) (img_sz0 : Option Value) (wrap : Bool) :
    Except PyErr NetD :=
  let img_sz : Option Value :=
    if containsKey opt_net "image_size" then dlookup opt_net "image_size" else img_sz0
  match dlookup opt_net "which_model_D" with
  | Option.none => .error (.keyError "which_model_D")
  | some wm => define_D_branch wm img_sz wrap opt_net

/-- The key transform of the checkpoint-loading loops: a key beginning
with `module.` has exactly that 7-character prefix removed, every other
key is kept unchanged. -/
def stripModuleKey (k : String) : String :=
  if "module.".toList.isPrefixOf k.toList then String.mk (k.toList.drop 7) else k

/-- The `load_net_clean` OrderedDict built by the checkpoint-loading
loops of `define_fixed_D` and `define_F`: insert the transformed pairs
one by one, in iteration order. -/
def cleanStateDict (load_net : List (String × Value)) : Dict :=
  load_net.foldl (fun d kv => dset d (stripModuleKey kv.1) kv.2) []

/-- The observable state of the network returned by `define_fixed_D`:
the constructor-call descriptor, the state dict passed to
`load_state_dict`, the train/eval flag (`eval()` clears it), whether the
named parameters still require gradients, and the `fdisc_weight`
attribute set at the end. -/
structure FixedD where
  net : NetD
  loadedState : Dict
  training : Bool
  requiresGrad : Bool
  fdiscWeight : Value
  deriving DecidableEq

/-- `define_fixed_D(opt)` of `networks.py`.  `torch.load` is external
file I/O; the pair list `loaded` stands for the object it returns, after
the subscript `opt['pretrained_path']` (whose `KeyError` is modelled)
succeeds.  `load_state_dict` is modelled as storing the cleaned dict;
`eval()` and the `requires_grad = False` loop over the named parameters
are modelled by the two flags (a freshly constructed module has
`training=True` and every parameter requiring gradients). -/
def define_fixed_D (opt : Dict) (loaded : List (String × Value)) :
    Except PyErr FixedD :=
  ebind (define_D_net opt Option.none false) fun netD =>
  ebind (need opt "pretrained_path") fun _ =>
  let cleaned := cleanStateDict loaded
  ebind (need opt "weight") fun w =>
  Except.ok (FixedD.mk netD cleaned false false w)

/-- Constructor-call descriptors for the perceptual-loss feature
extractors of `define_F` (all built with `use_input_norm=True`). -/
inductive FArch where
  | VGGFeatureExtractor (feature_layers : List Int) (use_bn use_input_norm : Bool)
  | TrainableVGGFeatureExtractor (feature_layers : List Int) (use_bn use_input_norm : Bool)
  | WideResnetFeatureExtractor (use_input_norm : Bool)
  deriving DecidableEq

/-- The name of the constructor call an `FArch` descriptor records. -/
def FArch.ctorName : FArch → String
  | VGGFeatureExtractor .. => "VGGFeatureExtractor"
  | TrainableVGGFeatureExtractor .. => "TrainableVGGFeatureExtractor"
  | WideResnetFeatureExtractor .. => "WideResnetFeatureExtractor"

/-- The observable state of the network returned by `define_F`: the
constructor call, the cleaned state dict passed to `load_state_dict`
when a load path was given, the train/eval flag and whether the named
parameters still require gradients. -/
structure NetF where
  arch : FArch
  loadedState : Option Dict
  training : Bool
  requiresGrad : Bool
  deriving DecidableEq

/-- `define_F(which_model, use_bn, for_training, load_path,
feature_layers)` of `networks.py`.  As in `define_fixed_D`, `loaded`
stands for the object `torch.load(load_path)` returns; `if load_path:`
is Python truthiness, so the empty string also skips loading.  A freshly
constructed module has `training=True` and all parameters requiring
gradients; when `for_training` is false the module is put into eval mode
and every named parameter gets `requires_grad = False`. -/
def define_F (which_model : String) (use_bn for_training : Bool)
    (load_path : Option String) (feature_layers0 : Option (List Int))
    (loaded : List (String × Value)) : Except PyErr NetF :=
  ebind
    (if which_model == "vgg" then
      let fl := match feature_layers0 with
        | some l => l
        | Option.none => if use_bn then [49] else [34]
      Except.ok (if for_training then FArch.TrainableVGGFeatureExtractor fl use_bn true
        else FArch.VGGFeatureExtractor fl use_bn true)
    else if which_model == "wide_resnet" then
      Except.ok (FArch.WideResnetFeatureExtractor true)
    else
      Except.error PyErr.notImplemented) fun arch =>
  let st : Option Dict :=
    match load_path with
    | some p => if p == "" then Option.none else some (cleanStateDict loaded)
    | Option.none => Option.none
  Except.ok (NetF.mk arch st for_training for_training)

/-! Spec-side definitions for the factory claims, written from the
claims' words. -/

/-- Written from claim C2's words: the recognized generator identifiers —
the exact keys of the `define_G` dispatch plus, by the substring test of
the source, every string containing `RRDBNet`. -/
def recognizedG (m : String) : Bool :=
  m == "MSRResNet" || strContains m "RRDBNet" || m == "multires_rrdb" ||
  m == "twostep_rrdb" || m == "rcan" || m == "panet" ||
  m == "ConfigurableSwitchedResidualGenerator2" || m == "srg2classic" || m == "spsr" ||
  m == "spsr_net_improved" || m == "spsr_switched" || m == "spsr7" || m == "flownet2" ||
  m == "backbone_encoder" || m == "backbone_encoder_no_ref" ||
  m == "backbone_encoder_no_head" || m == "backbone_resnet" || m == "tecogen" ||
  m == "stylegan2" || m == "srflow" || m == "srflow_orig" || m == "rrdb_latent_wrapper" ||
  m == "rrdb_centipede" || m == "rrdb_srflow" || m == "mdcn"

/-- Written from claim C2's words: the recognized discriminator
identifiers of `define_D_net`. -/
def recognizedD (m : String) : Bool :=
  m == "discriminator_vgg_128" || m == "discriminator_vgg_128_gn" ||
  m == "discriminator_vgg_128_gn_checkpointed" || m == "stylegan_vgg" ||
  m == "discriminator_resnet" || m == "discriminator_resnet_50" || m == "resnext" ||
  m == "biggan_resnet" || m == "discriminator_pix" || m == "discriminator_unet" ||
  m == "discriminator_unet_fea" || m == "discriminator_switched" ||
  m == "cross_compare_vgg128" || m == "discriminator_refvgg" || m == "psnr_approximator" ||
  m == "stylegan2_discriminator" || m == "stylegan2_unet" || m == "rrdb_disc"

/-- Written from claim C2's words: the recognized feature-extractor
identifiers of `define_F`. -/
def recognizedF (m : String) : Bool :=
  m == "vgg" || m == "wide_resnet"

/-- Written from claim C2's words: the generator mapping table — the name
of the constructor call mapped to each recognized key (every string
containing `RRDBNet` maps to the `RRDBNet` call). -/
def specCtorG (m : String) : Option String :=
  if m == "MSRResNet" then some "MSRResNet"
  else if strContains m "RRDBNet" then some "RRDBNet"
  else if m == "multires_rrdb" then some "MultiResRRDBNet"
  else if m == "twostep_rrdb" then some "PixelShufflingSteppedResRRDBNet"
  else if m == "rcan" then some "RCAN"
  else if m == "panet" then some "PANET"
  else if m == "ConfigurableSwitchedResidualGenerator2" then
    some "ConfigurableSwitchedResidualGenerator2"
  else if m == "srg2classic" then some "SRG2ClassicGenerator"
  else if m == "spsr" then some "SPSRNet"
  else if m == "spsr_net_improved" then some "SPSRNetSimplified"
  else if m == "spsr_switched" then some "SwitchedSpsr"
  else if m == "spsr7" then some "Spsr7"
  else if m == "flownet2" then some "FlowNet2"
  else if m == "backbone_encoder" then some "BackboneEncoder"
  else if m == "backbone_encoder_no_ref" then some "BackboneEncoderNoRef"
  else if m == "backbone_encoder_no_head" then some "BackboneSpinenetNoHead"
  else if m == "backbone_resnet" then some "BackboneResnet"
  else if m == "tecogen" then some "TecoGen"
  else if m == "stylegan2" then some "StyleGan2GeneratorWithLatent"
  else if m == "srflow" then some "SRFlowNet"
  else if m == "srflow_orig" then some "SRFlowNetOrig"
  else if m == "rrdb_latent_wrapper" then some "RRDBLatentWrapper"
  else if m == "rrdb_centipede" then some "RRDBNetHeadless"
  else if m == "rrdb_srflow" then some "RRDBNetSrflow"
  else if m == "mdcn" then some "MDCN"
  else Option.none

/-- Written from claim C2's words: the discriminator mapping table for
`wrap=False` calls. -/
def specCtorD (m : String) : Option String :=
  if m == "discriminator_vgg_128" then some "Discriminator_VGG_128"
  else if m == "discriminator_vgg_128_gn" then some "Discriminator_VGG_128_GN"
  else if m == "discriminator_vgg_128_gn_checkpointed" then
    some "Discriminator_VGG_128_GN_ckpt"
  else if m == "stylegan_vgg" then some "StyleGanDiscriminator128"
  else if m == "discriminator_resnet" then some "FixupResnet34"
  else if m == "discriminator_resnet_50" then some "FixupResnet50"
  else if m == "resnext" then some "ResNeXt50"
  else if m == "biggan_resnet" then some "BigGanDiscriminator"
  else if m == "discriminator_pix" then some "Discriminator_VGG_PixLoss"
  else if m == "discriminator_unet" then some "Discriminator_UNet"
  else if m == "discriminator_unet_fea" then some "Discriminator_UNet_FeaOut"
  else if m == "discriminator_switched" then some "Discriminator_switched"
  else if m == "cross_compare_vgg128" then some "CrossCompareDiscriminator"
  else if m == "discriminator_refvgg" then some "RefDiscriminatorVgg128"
  else if m == "psnr_approximator" then some "PsnrApproximator"
  else if m == "stylegan2_discriminator" then some "StyleGan2Augmentor"
  else if m == "stylegan2_unet" then some "StyleGan2UnetAugmentor"
  else if m == "rrdb_disc" then some "RRDBDiscriminator"
  else Option.none

/-- Written from claim C2's words: the feature-extractor mapping table
(for `vgg` the constructor called depends on `for_training`). -/
def specCtorF (m : String) (for_training : Bool) : Option String :=
  if m == "vgg" then
    some (if for_training then "TrainableVGGFeatureExtractor" else "VGGFeatureExtractor")
  else if m == "wide_resnet" then some "WideResnetFeatureExtractor"
  else Option.none

end Networks

namespace Cleaners

/-! Helper lemmas about the cleaner definitions. -/

/-- The per-word dispatch of the source equals the claim-worded one. -/
theorem processWord_eq_spec (w : List Char) : processWord w = processWordSpec w := by
  unfold processWord processWordSpec
  by_cases hu : hasUrduChar w = true
  · simp [hu]
  · simp only [Bool.not_eq_true] at hu
    simp [hu]

/-- The collapse state after scanning a list: whether its last character
is whitespace (the starting state if it is empty). -/
def endSp (b : Bool) : List Char → Bool
  | [] => b
  | c :: cs => endSp (isPySpace c) cs

theorem collapseAux_cons_space_false {c : Char} (cs : List Char)
    (hc : isPySpace c = true) :
    collapseAux false (c :: cs) = ' ' :: collapseAux true cs := by
  simp [collapseAux, hc]

theorem collapseAux_cons_space_true {c : Char} (cs : List Char)
    (hc : isPySpace c = true) :
    collapseAux true (c :: cs) = collapseAux true cs := by
  simp [collapseAux, hc]

theorem collapseAux_cons_not_space {c : Char} (cs : List Char) (b : Bool)
    (hc : isPySpace c = false) :
    collapseAux b (c :: cs) = c :: collapseAux false cs := by
  simp [collapseAux, hc]

theorem headCaseOfHead (l : List Char)
    (h : ∀ c, l.head? = some c → isPySpace c = false) :
    l = [] ∨ ∃ y v0, l = y :: v0 ∧ isPySpace y = false := by
  cases l with
  | nil => exact Or.inl rfl
  | cons y v0 => exact Or.inr ⟨y, v0, rfl, h y rfl⟩

theorem collapseAux_append (u v : List Char) (b : Bool) :
    collapseAux b (u ++ v) = collapseAux b u ++ collapseAux (endSp b u) v := by
  induction u generalizing b with
  | nil => simp [collapseAux, endSp]
  | cons c u ih =>
    by_cases hc : isPySpace c = true
    · cases b <;> simp [collapseAux, hc, endSp, ih]
    · simp only [Bool.not_eq_true] at hc
      simp [collapseAux, hc, endSp, ih]

theorem endSp_last_not_space (b : Bool) (u0 : List Char) (x : Char)
    (hx : isPySpace x = false) : endSp b (u0 ++ [x]) = false := by
  induction u0 generalizing b with
  | nil => simp [endSp, hx]
  | cons c u ih => simp [endSp, ih]

theorem collapseAux_true_all_space (w v : List Char) (hw : ∀ c ∈ w, isPySpace c = true) :
    collapseAux true (w ++ v) = collapseAux true v := by
  induction w with
  | nil => rfl
  | cons c w ih =>
    have hc : isPySpace c = true := hw c (by simp)
    simp only [List.cons_append, collapseAux, hc, if_true]
    exact ih fun d hd => hw d (by simp [hd])

theorem collapseAux_true_head_not_space (v : List Char)
    (hv : v = [] ∨ ∃ y v0, v = y :: v0 ∧ isPySpace y = false) :
    collapseAux true v = collapseAux false v := by
  rcases hv with rfl | ⟨y, v0, rfl, hy⟩
  · rfl
  · simp [collapseAux, hy]

theorem collapse_run (u w v : List Char)
    (hu : u = [] ∨ ∃ u0 x, u = u0 ++ [x] ∧ isPySpace x = false)
    (hw : w ≠ []) (hws : ∀ c ∈ w, isPySpace c = true)
    (hv : v = [] ∨ ∃ y v0, v = y :: v0 ∧ isPySpace y = false) :
    collapse_whitespace (u ++ w ++ v) =
      collapse_whitespace u ++ ' ' :: collapse_whitespace v := by
  have hend : endSp false u = false := by
    rcases hu with rfl | ⟨u0, x, rfl, hx⟩
    · rfl
    · exact endSp_last_not_space false u0 x hx
  unfold collapse_whitespace
  rw [List.append_assoc, collapseAux_append, hend]
  congr 1
  obtain ⟨c, w0, rfl⟩ : ∃ c w0, w = c :: w0 := by
    cases w with
    | nil => exact absurd rfl hw
    | cons c w0 => exact ⟨c, w0, rfl⟩
  have hc : isPySpace c = true := hws c (by simp)
  rw [List.cons_append, collapseAux_cons_space_false _ hc,
    collapseAux_true_all_space w0 v fun d hd => hws d (by simp [hd]),
    collapseAux_true_head_not_space v hv]

theorem collapse_no_space_id (s : List Char) (hs : ∀ c ∈ s, isPySpace c = false) :
    collapse_whitespace s = s := by
  unfold collapse_whitespace
  induction s with
  | nil => rfl
  | cons c t ih =>
    have hc : isPySpace c = false := hs c (by simp)
    simp [collapseAux, hc]
    exact ih fun d hd => hs d (by simp [hd])

theorem collapseAux_true_head_spec (s : List Char) (c : Char)
    (h : (collapseAux true s).head? = some c) : isPySpace c = false := by
  induction s with
  | nil => simp [collapseAux] at h
  | cons x t ih =>
    by_cases hx : isPySpace x = true
    · simp only [collapseAux, hx, if_true] at h
      exact ih h
    · simp only [Bool.not_eq_true] at hx
      simp only [collapseAux, hx, Bool.false_eq_true, if_false, List.head?_cons,
        Option.some.injEq] at h
      exact h ▸ hx

theorem collapseAux_chain (s : List Char) (b : Bool) :
    List.Chain' (fun a d => ¬(isPySpace a = true ∧ isPySpace d = true))
      (collapseAux b s) := by
  induction s generalizing b with
  | nil => simp [collapseAux]
  | cons c t ih =>
    by_cases hc : isPySpace c = true
    · cases b with
      | true => simpa [collapseAux, hc] using ih true
      | false =>
        rw [collapseAux_cons_space_false _ hc, List.chain'_cons']
        refine ⟨fun y hy => ?_, ih true⟩
        intro ⟨_, hys⟩
        rw [collapseAux_true_head_spec t y hy] at hys
        exact Bool.false_ne_true hys
    · simp only [Bool.not_eq_true] at hc
      simp only [collapseAux, hc, Bool.false_eq_true, if_false]
      rw [List.chain'_cons']
      refine ⟨fun y _ => ?_, ih false⟩
      intro ⟨hcs, _⟩
      rw [hc] at hcs
      exact Bool.false_ne_true hcs

theorem collapseAux_mem_space (s : List Char) (b : Bool) (c : Char)
    (hc : c ∈ collapseAux b s) (hsp : isPySpace c = true) : c = ' ' := by
  induction s generalizing b with
  | nil => simp [collapseAux] at hc
  | cons x t ih =>
    by_cases hx : isPySpace x = true
    · cases b with
      | true =>
        rw [collapseAux_cons_space_true _ hx] at hc
        exact ih true hc
      | false =>
        rw [collapseAux_cons_space_false _ hx] at hc
        rcases List.mem_cons.mp hc with rfl | hc
        · rfl
        · exact ih true hc
    · simp only [Bool.not_eq_true] at hx
      rw [collapseAux_cons_not_space _ b hx] at hc
      rcases List.mem_cons.mp hc with rfl | hc
      · rw [hx] at hsp; exact absurd hsp Bool.false_ne_true
      · exact ih false hc

theorem collapseAux_collapse (s : List Char) (b : Bool) :
    collapseAux false (collapseAux b s) = collapseAux b s := by
  induction s generalizing b with
  | nil => cases b <;> rfl
  | cons c t ih =>
    by_cases hc : isPySpace c = true
    · cases b with
      | true => simpa [collapseAux, hc] using ih true
      | false =>
        rw [collapseAux_cons_space_false _ hc,
          collapseAux_cons_space_false _ (show isPySpace ' ' = true by decide)]
        congr 1
        have hh := collapseAux_true_head_not_space (collapseAux true t)
          (headCaseOfHead _ fun d hd => collapseAux_true_head_spec t d hd)
        rw [hh, ih true]
    · simp only [Bool.not_eq_true] at hc
      simp only [collapseAux, hc, Bool.false_eq_true, if_false]
      rw [ih false]

/-! Theorems for the cleaner claims. -/

/-- Claim C6: for every input string, `normalize_punctuation` replaces
every occurrence of each Urdu punctuation mark in the replacement table
with its English counterpart and leaves every character not in the table
unchanged; that is, it acts pointwise as the claim's character table. -/
theorem C6_normalize_punctuation_pointwise (s : List Char) :
    normalize_punctuation s = s.map punctMapSpec := by
  simp only [normalize_punctuation, punctuationReplacements, List.foldl, replaceChar,
    List.map_map]
  refine List.map_congr_left fun c _ => ?_
  by_cases h1 : c = '۔'
  · subst h1; rfl
  by_cases h2 : c = '،'
  · subst h2; rfl
  by_cases h3 : c = '؛'
  · subst h3; rfl
  by_cases h4 : c = '؟'
  · subst h4; rfl
  by_cases h5 : c = '!'
  · subst h5; rfl
  by_cases h6 : c = '“'
  · subst h6; rfl
  by_cases h7 : c = '”'
  · subst h7; rfl
  by_cases h8 : c = '‘'
  · subst h8; rfl
  by_cases h9 : c = '’'
  · subst h9; rfl
  simp [Function.comp, punctMapSpec, h1, h2, h3, h4, h5, h6, h7, h8, h9]

/-- Claim C7: `process_mixed_language` splits its input on whitespace,
processes each word by the claimed language dispatch (the Urdu branch,
numeral normalization then abbreviation expansion, whenever the word has
a character in U+0600–U+06FF even if it also has Latin letters; unidecode
transliteration for a word with Latin letters and no Arabic-script
character; otherwise unchanged), and rejoins with single spaces. -/
theorem C7_process_mixed_language_refines (s : List Char) :
    process_mixed_language s = joinWords ((pySplit s).map processWordSpec) := by
  unfold process_mixed_language
  exact congrArg joinWords (List.map_congr_left fun w _ => processWord_eq_spec w)

/-- Claim C1 fails on the code: on the one-character input U+0602 (the
first entry of `_special_characters`) the full pipeline removes the
character while the claimed four-step composition (punctuation mapping,
abbreviation expansion, numeral conversion, whitespace collapse) keeps
it. -/
theorem C1_counterexample :
    humanize_mixed_cleaners [Char.ofNat 0x602] ≠
      claimedCleanerComposition [Char.ofNat 0x602] := by decide

/-- Amended claim C1: the full cleaner pipeline applies punctuation
mapping first, then special-character removal, then per-word
mixed-language processing (numeral conversion then abbreviation expansion
for words with Arabic-script characters, ASCII transliteration for words
with Latin letters only, other words unchanged), then whitespace collapse
last; its result equals the composition of those steps in that order. -/
theorem C1_amended_pipeline (t : List Char) :
    humanize_mixed_cleaners t = amendedCleanerComposition t := by
  unfold humanize_mixed_cleaners amendedCleanerComposition process_mixed_language
  exact congrArg collapse_whitespace
    (congrArg joinWords (List.map_congr_left fun w _ => processWord_eq_spec w))

/-- Claim C8: `collapse_whitespace` replaces every maximal run of one or
more whitespace characters with a single space (first conjunct: a
whitespace run bounded by a non-whitespace character or a string edge on
both sides becomes one space; second conjunct: whitespace-free strings
are unchanged), so the result has no two adjacent whitespace characters
(third conjunct) and no whitespace character other than the space
character (fourth conjunct). -/
theorem C8_collapse_whitespace_runs :
    (∀ u w v : List Char,
        (u = [] ∨ ∃ u0 x, u = u0 ++ [x] ∧ isPySpace x = false) →
        w ≠ [] → (∀ c ∈ w, isPySpace c = true) →
        (v = [] ∨ ∃ y v0, v = y :: v0 ∧ isPySpace y = false) →
        collapse_whitespace (u ++ w ++ v) =
          collapse_whitespace u ++ ' ' :: collapse_whitespace v) ∧
    (∀ s : List Char, (∀ c ∈ s, isPySpace c = false) → collapse_whitespace s = s) ∧
    (∀ s : List Char,
        List.Chain' (fun a d => ¬(isPySpace a = true ∧ isPySpace d = true))
          (collapse_whitespace s)) ∧
    (∀ s : List Char, ∀ c ∈ collapse_whitespace s, isPySpace c = true → c = ' ') :=
  ⟨collapse_run, collapse_no_space_id, fun s => collapseAux_chain s false,
    fun s c hc hsp => collapseAux_mem_space s false c hc hsp⟩

/-- Witness for claim C8 at a concrete input: the run of a space and a
tab between the letters a and b collapses to one space. -/
theorem C8_witness :
    collapse_whitespace (['a'] ++ [' ', '\t'] ++ ['b']) =
      collapse_whitespace ['a'] ++ ' ' :: collapse_whitespace ['b'] :=
  C8_collapse_whitespace_runs.1 ['a'] [' ', '\t'] ['b']
    (Or.inr ⟨[], 'a', rfl, by decide⟩) (by decide) (by decide)
    (Or.inr ⟨'b', [], rfl, by decide⟩)

/-- Claim C10: `collapse_whitespace` is idempotent. -/
theorem C10_collapse_whitespace_idempotent (t : List Char) :
    collapse_whitespace (collapse_whitespace t) = collapse_whitespace t :=
  collapseAux_collapse t false

end Cleaners

namespace Networks

/-! Helper lemmas about the evaluation model. -/

theorem ebind_eq_nie {α β : Type} (x : Except PyErr α) (f : α → Except PyErr β) :
    (ebind x f = .error .notImplemented) ↔
      (x = .error .notImplemented ∨ ∃ a, x = .ok a ∧ f a = .error .notImplemented) := by
  cases x <;> simp [ebind]

theorem emap_eq_nie {α β : Type} (f : α → β) (x : Except PyErr α) :
    (emap f x = .error .notImplemented) ↔ x = .error .notImplemented := by
  cases x <;> simp [emap]

theorem need_eq_nie (d : Dict) (k : String) :
    (need d k = Except.error PyErr.notImplemented) ↔ False := by
  unfold need
  cases dlookup d k <;> simp

theorem needs_eq_nie (d : Dict) (ks : List String) :
    (needs d ks = Except.error PyErr.notImplemented) ↔ False := by
  induction ks with
  | nil => simp [needs]
  | cons k ks ih => simp [needs, ebind_eq_nie, need_eq_nie, ih]

theorem pydivInt_eq_nie (v : Value) (d : Int) :
    (pydivInt v d = Except.error PyErr.notImplemented) ↔ False := by
  cases v <;> simp [pydivInt]

theorem imgFactor_eq_nie (i : Option Value) :
    (imgFactor i = Except.error PyErr.notImplemented) ↔ False := by
  cases i <;> simp [imgFactor, pydivInt_eq_nie]

theorem ebind_eq_ok {α β : Type} (x : Except PyErr α) (f : α → Except PyErr β) (b : β) :
    (ebind x f = .ok b) ↔ ∃ a, x = .ok a ∧ f a = .ok b := by
  cases x <;> simp [ebind]

theorem emap_eq_ok {α β : Type} (f : α → β) (x : Except PyErr α) (b : β) :
    (emap f x = .ok b) ↔ ∃ a, x = .ok a ∧ b = f a := by
  cases x <;> simp [emap, eq_comm]

end Networks

namespace Networks

/-! Branch-by-branch lemmas about the factory dispatch chains. -/

theorem define_G_str_nie (m : String) (scale : Value) (opt opt_net : Dict) : ((define_G_str m scale opt opt_net).1 = .error .notImplemented) ↔ recognizedG m = false := by
  unfold define_G_str
  by_cases h1 : (m == "MSRResNet") = true
  · rw [if_pos h1]
    have hr : recognizedG m = true := by simp [recognizedG, h1]
    rw [hr]
    simp [emap_eq_nie, needs_eq_nie, need_eq_nie, ebind_eq_nie, imgFactor_eq_nie]
  rw [if_neg h1]
  by_cases h2 : strContains m "RRDBNet" = true
  · rw [if_pos h2]
    have hr : recognizedG m = true := by simp [recognizedG, h2]
    rw [hr]
    simp [emap_eq_nie, needs_eq_nie, need_eq_nie, ebind_eq_nie, imgFactor_eq_nie]
  rw [if_neg h2]
  by_cases h3 : (m == "multires_rrdb") = true
  · rw [if_pos h3]
    have hr : recognizedG m = true := by simp [recognizedG, h3]
    rw [hr]
    simp [emap_eq_nie, needs_eq_nie, need_eq_nie, ebind_eq_nie, imgFactor_eq_nie]
  rw [if_neg h3]
  by_cases h4 : (m == "twostep_rrdb") = true
  · rw [if_pos h4]
    have hr : recognizedG m = true := by simp [recognizedG, h4]
    rw [hr]
    simp [emap_eq_nie, needs_eq_nie, need_eq_nie, ebind_eq_nie, imgFactor_eq_nie]
  rw [if_neg h4]
  by_cases h5 : (m == "rcan") = true
  · rw [if_pos h5]
    have hr : recognizedG m = true := by simp [recognizedG, h5]
    rw [hr]
    simp [emap_eq_nie, needs_eq_nie, need_eq_nie, ebind_eq_nie, imgFactor_eq_nie]
  rw [if_neg h5]
  by_cases h6 : (m == "panet") = true
  · rw [if_pos h6]
    have hr : recognizedG m = true := by simp [recognizedG, h6]
    rw [hr]
    simp [emap_eq_nie, needs_eq_nie, need_eq_nie, ebind_eq_nie, imgFactor_eq_nie]
  rw [if_neg h6]
  by_cases h7 : (m == "ConfigurableSwitchedResidualGenerator2") = true
  · rw [if_pos h7]
    have hr : recognizedG m = true := by simp [recognizedG, h7]
    rw [hr]
    simp [emap_eq_nie, needs_eq_nie, need_eq_nie, ebind_eq_nie, imgFactor_eq_nie]
  rw [if_neg h7]
  by_cases h8 : (m == "srg2classic") = true
  · rw [if_pos h8]
    have hr : recognizedG m = true := by simp [recognizedG, h8]
    rw [hr]
    simp [emap_eq_nie, needs_eq_nie, need_eq_nie, ebind_eq_nie, imgFactor_eq_nie]
  rw [if_neg h8]
  by_cases h9 : (m == "spsr") = true
  · rw [if_pos h9]
    have hr : recognizedG m = true := by simp [recognizedG, h9]
    rw [hr]
    simp [emap_eq_nie, needs_eq_nie, need_eq_nie, ebind_eq_nie, imgFactor_eq_nie]
  rw [if_neg h9]
  by_cases h10 : (m == "spsr_net_improved") = true
  · rw [if_pos h10]
    have hr : recognizedG m = true := by simp [recognizedG, h10]
    rw [hr]
    simp [emap_eq_nie, needs_eq_nie, need_eq_nie, ebind_eq_nie, imgFactor_eq_nie]
  rw [if_neg h10]
  by_cases h11 : (m == "spsr_switched") = true
  · rw [if_pos h11]
    have hr : recognizedG m = true := by simp [recognizedG, h11]
    rw [hr]
    simp [emap_eq_nie, needs_eq_nie, need_eq_nie, ebind_eq_nie, imgFactor_eq_nie]
  rw [if_neg h11]
  by_cases h12 : (m == "spsr7") = true
  · rw [if_pos h12]
    have hr : recognizedG m = true := by simp [recognizedG, h12]
    rw [hr]
    simp [emap_eq_nie, needs_eq_nie, need_eq_nie, ebind_eq_nie, imgFactor_eq_nie]
  rw [if_neg h12]
  by_cases h13 : (m == "flownet2") = true
  · rw [if_pos h13]
    have hr : recognizedG m = true := by simp [recognizedG, h13]
    rw [hr]
    simp [emap_eq_nie, needs_eq_nie, need_eq_nie, ebind_eq_nie, imgFactor_eq_nie]
  rw [if_neg h13]
  by_cases h14 : (m == "backbone_encoder") = true
  · rw [if_pos h14]
    have hr : recognizedG m = true := by simp [recognizedG, h14]
    rw [hr]
    simp [emap_eq_nie, needs_eq_nie, need_eq_nie, ebind_eq_nie, imgFactor_eq_nie]
  rw [if_neg h14]
  by_cases h15 : (m == "backbone_encoder_no_ref") = true
  · rw [if_pos h15]
    have hr : recognizedG m = true := by simp [recognizedG, h15]
    rw [hr]
    simp [emap_eq_nie, needs_eq_nie, need_eq_nie, ebind_eq_nie, imgFactor_eq_nie]
  rw [if_neg h15]
  by_cases h16 : (m == "backbone_encoder_no_head") = true
  · rw [if_pos h16]
    have hr : recognizedG m = true := by simp [recognizedG, h16]
    rw [hr]
    simp [emap_eq_nie, needs_eq_nie, need_eq_nie, ebind_eq_nie, imgFactor_eq_nie]
  rw [if_neg h16]
  by_cases h17 : (m == "backbone_resnet") = true
  · rw [if_pos h17]
    have hr : recognizedG m = true := by simp [recognizedG, h17]
    rw [hr]
    simp [emap_eq_nie, needs_eq_nie, need_eq_nie, ebind_eq_nie, imgFactor_eq_nie]
  rw [if_neg h17]
  by_cases h18 : (m == "tecogen") = true
  · rw [if_pos h18]
    have hr : recognizedG m = true := by simp [recognizedG, h18]
    rw [hr]
    simp [emap_eq_nie, needs_eq_nie, need_eq_nie, ebind_eq_nie, imgFactor_eq_nie]
  rw [if_neg h18]
  by_cases h19 : (m == "stylegan2") = true
  · rw [if_pos h19]
    have hr : recognizedG m = true := by simp [recognizedG, h19]
    rw [hr]
    simp [emap_eq_nie, needs_eq_nie, need_eq_nie, ebind_eq_nie, imgFactor_eq_nie]
  rw [if_neg h19]
  by_cases h20 : (m == "srflow") = true
  · rw [if_pos h20]
    have hr : recognizedG m = true := by simp [recognizedG, h20]
    rw [hr]
    simp [emap_eq_nie, needs_eq_nie, need_eq_nie, ebind_eq_nie, imgFactor_eq_nie]
  rw [if_neg h20]
  by_cases h21 : (m == "srflow_orig") = true
  · rw [if_pos h21]
    have hr : recognizedG m = true := by simp [recognizedG, h21]
    rw [hr]
    simp [emap_eq_nie, needs_eq_nie, need_eq_nie, ebind_eq_nie, imgFactor_eq_nie]
  rw [if_neg h21]
  by_cases h22 : (m == "rrdb_latent_wrapper") = true
  · rw [if_pos h22]
    have hr : recognizedG m = true := by simp [recognizedG, h22]
    rw [hr]
    simp [emap_eq_nie, needs_eq_nie, need_eq_nie, ebind_eq_nie, imgFactor_eq_nie]
  rw [if_neg h22]
  by_cases h23 : (m == "rrdb_centipede") = true
  · rw [if_pos h23]
    have hr : recognizedG m = true := by simp [recognizedG, h23]
    rw [hr]
    simp [emap_eq_nie, needs_eq_nie, need_eq_nie, ebind_eq_nie, imgFactor_eq_nie]
  rw [if_neg h23]
  by_cases h24 : (m == "rrdb_srflow") = true
  · rw [if_pos h24]
    have hr : recognizedG m = true := by simp [recognizedG, h24]
    rw [hr]
    simp [emap_eq_nie, needs_eq_nie, need_eq_nie, ebind_eq_nie, imgFactor_eq_nie]
  rw [if_neg h24]
  by_cases h25 : (m == "mdcn") = true
  · rw [if_pos h25]
    have hr : recognizedG m = true := by simp [recognizedG, h25]
    rw [hr]
    simp [emap_eq_nie, needs_eq_nie, need_eq_nie, ebind_eq_nie, imgFactor_eq_nie]
  rw [if_neg h25]
  simp only [Bool.not_eq_true] at h1 h2 h3 h4 h5 h6 h7 h8 h9 h10 h11 h12 h13 h14 h15 h16 h17 h18 h19 h20 h21 h22 h23 h24 h25
  have hr : recognizedG m = false := by simp [recognizedG, h1, h2, h3, h4, h5, h6, h7, h8, h9, h10, h11, h12, h13, h14, h15, h16, h17, h18, h19, h20, h21, h22, h23, h24, h25]
  rw [hr]
  simp



theorem define_G_str_ctor
    (m : String) (scale : Value) (opt opt_net : Dict) (g : NetG)
    (hok : (define_G_str m scale opt opt_net).1 = .ok g) :
    specCtorG m = some g.ctorName := by
  unfold define_G_str at hok
  by_cases h1 : (m == "MSRResNet") = true
  · rw [if_pos h1] at hok
    dsimp only at hok
    unfold specCtorG
    rw [if_pos h1]
    rcases (emap_eq_ok _ _ _).mp hok with ⟨vs, -, rfl⟩
    rfl
  rw [if_neg h1] at hok
  by_cases h2 : strContains m "RRDBNet" = true
  · rw [if_pos h2] at hok
    dsimp only at hok
    unfold specCtorG
    rw [if_neg h1, if_pos h2]
    simp only [ebind_eq_ok, Except.ok.injEq] at hok
    obtain ⟨a, -, b, -, c, -, d, -, e, -, rfl⟩ := hok
    rfl
  rw [if_neg h2] at hok
  by_cases h3 : (m == "multires_rrdb") = true
  · rw [if_pos h3] at hok
    dsimp only at hok
    unfold specCtorG
    rw [if_neg h1, if_neg h2, if_pos h3]
    rcases (emap_eq_ok _ _ _).mp hok with ⟨vs, -, rfl⟩
    rfl
  rw [if_neg h3] at hok
  by_cases h4 : (m == "twostep_rrdb") = true
  · rw [if_pos h4] at hok
    dsimp only at hok
    unfold specCtorG
    rw [if_neg h1, if_neg h2, if_neg h3, if_pos h4]
    rcases (emap_eq_ok _ _ _).mp hok with ⟨vs, -, rfl⟩
    rfl
  rw [if_neg h4] at hok
  by_cases h5 : (m == "rcan") = true
  · rw [if_pos h5] at hok
    dsimp only at hok
    unfold specCtorG
    rw [if_neg h1, if_neg h2, if_neg h3, if_neg h4, if_pos h5]
    simp only [Except.ok.injEq] at hok
    subst hok
    rfl
  rw [if_neg h5] at hok
  by_cases h6 : (m == "panet") = true
  · rw [if_pos h6] at hok
    dsimp only at hok
    unfold specCtorG
    rw [if_neg h1, if_neg h2, if_neg h3, if_neg h4, if_neg h5, if_pos h6]
    simp only [Except.ok.injEq] at hok
    subst hok
    rfl
  rw [if_neg h6] at hok
  by_cases h7 : (m == "ConfigurableSwitchedResidualGenerator2") = true
  · rw [if_pos h7] at hok
    dsimp only at hok
    unfold specCtorG
    rw [if_neg h1, if_neg h2, if_neg h3, if_neg h4, if_neg h5, if_neg h6, if_pos h7]
    rcases (emap_eq_ok _ _ _).mp hok with ⟨vs, -, rfl⟩
    rfl
  rw [if_neg h7] at hok
  by_cases h8 : (m == "srg2classic") = true
  · rw [if_pos h8] at hok
    dsimp only at hok
    unfold specCtorG
    rw [if_neg h1, if_neg h2, if_neg h3, if_neg h4, if_neg h5, if_neg h6, if_neg h7, if_pos h8]
    rcases (emap_eq_ok _ _ _).mp hok with ⟨vs, -, rfl⟩
    rfl
  rw [if_neg h8] at hok
  by_cases h9 : (m == "spsr") = true
  · rw [if_pos h9] at hok
    dsimp only at hok
    unfold specCtorG
    rw [if_neg h1, if_neg h2, if_neg h3, if_neg h4, if_neg h5, if_neg h6, if_neg h7, if_neg h8, if_pos h9]
    rcases (emap_eq_ok _ _ _).mp hok with ⟨vs, -, rfl⟩
    rfl
  rw [if_neg h9] at hok
  by_cases h10 : (m == "spsr_net_improved") = true
  · rw [if_pos h10] at hok
    dsimp only at hok
    unfold specCtorG
    rw [if_neg h1, if_neg h2, if_neg h3, if_neg h4, if_neg h5, if_neg h6, if_neg h7, if_neg h8, if_neg h9, if_pos h10]
    rcases (emap_eq_ok _ _ _).mp hok with ⟨vs, -, rfl⟩
    rfl
  rw [if_neg h10] at hok
  by_cases h11 : (m == "spsr_switched") = true
  · rw [if_pos h11] at hok
    dsimp only at hok
    unfold specCtorG
    rw [if_neg h1, if_neg h2, if_neg h3, if_neg h4, if_neg h5, if_neg h6, if_neg h7, if_neg h8, if_neg h9, if_neg h10, if_pos h11]
    rcases (emap_eq_ok _ _ _).mp hok with ⟨vs, -, rfl⟩
    rfl
  rw [if_neg h11] at hok
  by_cases h12 : (m == "spsr7") = true
  · rw [if_pos h12] at hok
    dsimp only at hok
    unfold specCtorG
    rw [if_neg h1, if_neg h2, if_neg h3, if_neg h4, if_neg h5, if_neg h6, if_neg h7, if_neg h8, if_neg h9, if_neg h10, if_neg h11, if_pos h12]
    simp only [ebind_eq_ok, Except.ok.injEq] at hok
    obtain ⟨a, -, b, -, rfl⟩ := hok
    rfl
  rw [if_neg h12] at hok
  by_cases h13 : (m == "flownet2") = true
  · rw [if_pos h13] at hok
    dsimp only at hok
    unfold specCtorG
    rw [if_neg h1, if_neg h2, if_neg h3, if_neg h4, if_neg h5, if_neg h6, if_neg h7, if_neg h8, if_neg h9, if_neg h10, if_neg h11, if_neg h12, if_pos h13]
    simp only [Except.ok.injEq] at hok
    subst hok
    rfl
  rw [if_neg h13] at hok
  by_cases h14 : (m == "backbone_encoder") = true
  · rw [if_pos h14] at hok
    dsimp only at hok
    unfold specCtorG
    rw [if_neg h1, if_neg h2, if_neg h3, if_neg h4, if_neg h5, if_neg h6, if_neg h7, if_neg h8, if_neg h9, if_neg h10, if_neg h11, if_neg h12, if_neg h13, if_pos h14]
    rcases (emap_eq_ok _ _ _).mp hok with ⟨vs, -, rfl⟩
    rfl
  rw [if_neg h14] at hok
  by_cases h15 : (m == "backbone_encoder_no_ref") = true
  · rw [if_pos h15] at hok
    dsimp only at hok
    unfold specCtorG
    rw [if_neg h1, if_neg h2, if_neg h3, if_neg h4, if_neg h5, if_neg h6, if_neg h7, if_neg h8, if_neg h9, if_neg h10, if_neg h11, if_neg h12, if_neg h13, if_neg h14, if_pos h15]
    rcases (emap_eq_ok _ _ _).mp hok with ⟨vs, -, rfl⟩
    rfl
  rw [if_neg h15] at hok
  by_cases h16 : (m == "backbone_encoder_no_head") = true
  · rw [if_pos h16] at hok
    dsimp only at hok
    unfold specCtorG
    rw [if_neg h1, if_neg h2, if_neg h3, if_neg h4, if_neg h5, if_neg h6, if_neg h7, if_neg h8, if_neg h9, if_neg h10, if_neg h11, if_neg h12, if_neg h13, if_neg h14, if_neg h15, if_pos h16]
    simp only [Except.ok.injEq] at hok
    subst hok
    rfl
  rw [if_neg h16] at hok
  by_cases h17 : (m == "backbone_resnet") = true
  · rw [if_pos h17] at hok
    dsimp only at hok
    unfold specCtorG
    rw [if_neg h1, if_neg h2, if_neg h3, if_neg h4, if_neg h5, if_neg h6, if_neg h7, if_neg h8, if_neg h9, if_neg h10, if_neg h11, if_neg h12, if_neg h13, if_neg h14, if_neg h15, if_neg h16, if_pos h17]
    simp only [Except.ok.injEq] at hok
    subst hok
    rfl
  rw [if_neg h17] at hok
  by_cases h18 : (m == "tecogen") = true
  · rw [if_pos h18] at hok
    dsimp only at hok
    unfold specCtorG
    rw [if_neg h1, if_neg h2, if_neg h3, if_neg h4, if_neg h5, if_neg h6, if_neg h7, if_neg h8, if_neg h9, if_neg h10, if_neg h11, if_neg h12, if_neg h13, if_neg h14, if_neg h15, if_neg h16, if_neg h17, if_pos h18]
    simp only [ebind_eq_ok, Except.ok.injEq] at hok
    obtain ⟨a, -, b, -, rfl⟩ := hok
    rfl
  rw [if_neg h18] at hok
  by_cases h19 : (m == "stylegan2") = true
  · rw [if_pos h19] at hok
    dsimp only at hok
    unfold specCtorG
    rw [if_neg h1, if_neg h2, if_neg h3, if_neg h4, if_neg h5, if_neg h6, if_neg h7, if_neg h8, if_neg h9, if_neg h10, if_neg h11, if_neg h12, if_neg h13, if_neg h14, if_neg h15, if_neg h16, if_neg h17, if_neg h18, if_pos h19]
    simp only [ebind_eq_ok, Except.ok.injEq] at hok
    obtain ⟨a, -, b, -, c, -, rfl⟩ := hok
    rfl
  rw [if_neg h19] at hok
  by_cases h20 : (m == "srflow") = true
  · rw [if_pos h20] at hok
    dsimp only at hok
    unfold specCtorG
    rw [if_neg h1, if_neg h2, if_neg h3, if_neg h4, if_neg h5, if_neg h6, if_neg h7, if_neg h8, if_neg h9, if_neg h10, if_neg h11, if_neg h12, if_neg h13, if_neg h14, if_neg h15, if_neg h16, if_neg h17, if_neg h18, if_neg h19, if_pos h20]
    rcases (emap_eq_ok _ _ _).mp hok with ⟨vs, -, rfl⟩
    rfl
  rw [if_neg h20] at hok
  by_cases h21 : (m == "srflow_orig") = true
  · rw [if_pos h21] at hok
    dsimp only at hok
    unfold specCtorG
    rw [if_neg h1, if_neg h2, if_neg h3, if_neg h4, if_neg h5, if_neg h6, if_neg h7, if_neg h8, if_neg h9, if_neg h10, if_neg h11, if_neg h12, if_neg h13, if_neg h14, if_neg h15, if_neg h16, if_neg h17, if_neg h18, if_neg h19, if_neg h20, if_pos h21]
    rcases (emap_eq_ok _ _ _).mp hok with ⟨vs, -, rfl⟩
    rfl
  rw [if_neg h21] at hok
  by_cases h22 : (m == "rrdb_latent_wrapper") = true
  · rw [if_pos h22] at hok
    dsimp only at hok
    unfold specCtorG
    rw [if_neg h1, if_neg h2, if_neg h3, if_neg h4, if_neg h5, if_neg h6, if_neg h7, if_neg h8, if_neg h9, if_neg h10, if_neg h11, if_neg h12, if_neg h13, if_neg h14, if_neg h15, if_neg h16, if_neg h17, if_neg h18, if_neg h19, if_neg h20, if_neg h21, if_pos h22]
    rcases (emap_eq_ok _ _ _).mp hok with ⟨vs, -, rfl⟩
    rfl
  rw [if_neg h22] at hok
  by_cases h23 : (m == "rrdb_centipede") = true
  · rw [if_pos h23] at hok
    dsimp only at hok
    unfold specCtorG
    rw [if_neg h1, if_neg h2, if_neg h3, if_neg h4, if_neg h5, if_neg h6, if_neg h7, if_neg h8, if_neg h9, if_neg h10, if_neg h11, if_neg h12, if_neg h13, if_neg h14, if_neg h15, if_neg h16, if_neg h17, if_neg h18, if_neg h19, if_neg h20, if_neg h21, if_neg h22, if_pos h23]
    rcases (emap_eq_ok _ _ _).mp hok with ⟨vs, -, rfl⟩
    rfl
  rw [if_neg h23] at hok
  by_cases h24 : (m == "rrdb_srflow") = true
  · rw [if_pos h24] at hok
    dsimp only at hok
    unfold specCtorG
    rw [if_neg h1, if_neg h2, if_neg h3, if_neg h4, if_neg h5, if_neg h6, if_neg h7, if_neg h8, if_neg h9, if_neg h10, if_neg h11, if_neg h12, if_neg h13, if_neg h14, if_neg h15, if_neg h16, if_neg h17, if_neg h18, if_neg h19, if_neg h20, if_neg h21, if_neg h22, if_neg h23, if_pos h24]
    rcases (emap_eq_ok _ _ _).mp hok with ⟨vs, -, rfl⟩
    rfl
  rw [if_neg h24] at hok
  by_cases h25 : (m == "mdcn") = true
  · rw [if_pos h25] at hok
    dsimp only at hok
    unfold specCtorG
    rw [if_neg h1, if_neg h2, if_neg h3, if_neg h4, if_neg h5, if_neg h6, if_neg h7, if_neg h8, if_neg h9, if_neg h10, if_neg h11, if_neg h12, if_neg h13, if_neg h14, if_neg h15, if_neg h16, if_neg h17, if_neg h18, if_neg h19, if_neg h20, if_neg h21, if_neg h22, if_neg h23, if_neg h24, if_pos h25]
    rcases (emap_eq_ok _ _ _).mp hok with ⟨vs, -, rfl⟩
    rfl
  rw [if_neg h25] at hok
  dsimp only at hok
  exact absurd hok (by simp)



theorem define_G_str_frame (m : String) (scale : Value) (opt opt_net : Dict)
    (hm1 : (m == "rcan") = false) (hm2 : (m == "panet") = false) :
    (define_G_str m scale opt opt_net).2 = opt_net := by
  unfold define_G_str
  by_cases h1 : (m == "MSRResNet") = true
  · rw [if_pos h1]
  rw [if_neg h1]
  by_cases h2 : strContains m "RRDBNet" = true
  · rw [if_pos h2]
  rw [if_neg h2]
  by_cases h3 : (m == "multires_rrdb") = true
  · rw [if_pos h3]
  rw [if_neg h3]
  by_cases h4 : (m == "twostep_rrdb") = true
  · rw [if_pos h4]
  rw [if_neg h4]
  by_cases h5 : (m == "rcan") = true
  · rw [hm1] at h5; exact Bool.noConfusion h5
  rw [if_neg h5]
  by_cases h6 : (m == "panet") = true
  · rw [hm2] at h6; exact Bool.noConfusion h6
  rw [if_neg h6]
  by_cases h7 : (m == "ConfigurableSwitchedResidualGenerator2") = true
  · rw [if_pos h7]
  rw [if_neg h7]
  by_cases h8 : (m == "srg2classic") = true
  · rw [if_pos h8]
  rw [if_neg h8]
  by_cases h9 : (m == "spsr") = true
  · rw [if_pos h9]
  rw [if_neg h9]
  by_cases h10 : (m == "spsr_net_improved") = true
  · rw [if_pos h10]
  rw [if_neg h10]
  by_cases h11 : (m == "spsr_switched") = true
  · rw [if_pos h11]
  rw [if_neg h11]
  by_cases h12 : (m == "spsr7") = true
  · rw [if_pos h12]
  rw [if_neg h12]
  by_cases h13 : (m == "flownet2") = true
  · rw [if_pos h13]
  rw [if_neg h13]
  by_cases h14 : (m == "backbone_encoder") = true
  · rw [if_pos h14]
  rw [if_neg h14]
  by_cases h15 : (m == "backbone_encoder_no_ref") = true
  · rw [if_pos h15]
  rw [if_neg h15]
  by_cases h16 : (m == "backbone_encoder_no_head") = true
  · rw [if_pos h16]
  rw [if_neg h16]
  by_cases h17 : (m == "backbone_resnet") = true
  · rw [if_pos h17]
  rw [if_neg h17]
  by_cases h18 : (m == "tecogen") = true
  · rw [if_pos h18]
  rw [if_neg h18]
  by_cases h19 : (m == "stylegan2") = true
  · rw [if_pos h19]
  rw [if_neg h19]
  by_cases h20 : (m == "srflow") = true
  · rw [if_pos h20]
  rw [if_neg h20]
  by_cases h21 : (m == "srflow_orig") = true
  · rw [if_pos h21]
  rw [if_neg h21]
  by_cases h22 : (m == "rrdb_latent_wrapper") = true
  · rw [if_pos h22]
  rw [if_neg h22]
  by_cases h23 : (m == "rrdb_centipede") = true
  · rw [if_pos h23]
  rw [if_neg h23]
  by_cases h24 : (m == "rrdb_srflow") = true
  · rw [if_pos h24]
  rw [if_neg h24]
  by_cases h25 : (m == "mdcn") = true
  · rw [if_pos h25]
  rw [if_neg h25]



theorem define_D_str_nie (m : String) (img_sz : Option Value) (wrap : Bool) (opt_net : Dict) : ((define_D_str m img_sz wrap opt_net) = .error .notImplemented) ↔ recognizedD m = false := by
  unfold define_D_str
  by_cases h1 : (m == "discriminator_vgg_128") = true
  · rw [if_pos h1]
    have hr : recognizedD m = true := by simp [recognizedD, h1]
    rw [hr]
    simp [emap_eq_nie, needs_eq_nie, need_eq_nie, ebind_eq_nie, imgFactor_eq_nie]
  rw [if_neg h1]
  by_cases h2 : (m == "discriminator_vgg_128_gn") = true
  · rw [if_pos h2]
    have hr : recognizedD m = true := by simp [recognizedD, h2]
    rw [hr]
    simp [emap_eq_nie, needs_eq_nie, need_eq_nie, ebind_eq_nie, imgFactor_eq_nie]
  rw [if_neg h2]
  by_cases h3 : (m == "discriminator_vgg_128_gn_checkpointed") = true
  · rw [if_pos h3]
    have hr : recognizedD m = true := by simp [recognizedD, h3]
    rw [hr]
    simp [emap_eq_nie, needs_eq_nie, need_eq_nie, ebind_eq_nie, imgFactor_eq_nie]
  rw [if_neg h3]
  by_cases h4 : (m == "stylegan_vgg") = true
  · rw [if_pos h4]
    have hr : recognizedD m = true := by simp [recognizedD, h4]
    rw [hr]
    simp [emap_eq_nie, needs_eq_nie, need_eq_nie, ebind_eq_nie, imgFactor_eq_nie]
  rw [if_neg h4]
  by_cases h5 : (m == "discriminator_resnet") = true
  · rw [if_pos h5]
    have hr : recognizedD m = true := by simp [recognizedD, h5]
    rw [hr]
    simp [emap_eq_nie, needs_eq_nie, need_eq_nie, ebind_eq_nie, imgFactor_eq_nie]
  rw [if_neg h5]
  by_cases h6 : (m == "discriminator_resnet_50") = true
  · rw [if_pos h6]
    have hr : recognizedD m = true := by simp [recognizedD, h6]
    rw [hr]
    simp [emap_eq_nie, needs_eq_nie, need_eq_nie, ebind_eq_nie, imgFactor_eq_nie]
  rw [if_neg h6]
  by_cases h7 : (m == "resnext") = true
  · rw [if_pos h7]
    have hr : recognizedD m = true := by simp [recognizedD, h7]
    rw [hr]
    simp [emap_eq_nie, needs_eq_nie, need_eq_nie, ebind_eq_nie, imgFactor_eq_nie]
  rw [if_neg h7]
  by_cases h8 : (m == "biggan_resnet") = true
  · rw [if_pos h8]
    have hr : recognizedD m = true := by simp [recognizedD, h8]
    rw [hr]
    simp [emap_eq_nie, needs_eq_nie, need_eq_nie, ebind_eq_nie, imgFactor_eq_nie]
  rw [if_neg h8]
  by_cases h9 : (m == "discriminator_pix") = true
  · rw [if_pos h9]
    have hr : recognizedD m = true := by simp [recognizedD, h9]
    rw [hr]
    simp [emap_eq_nie, needs_eq_nie, need_eq_nie, ebind_eq_nie, imgFactor_eq_nie]
  rw [if_neg h9]
  by_cases h10 : (m == "discriminator_unet") = true
  · rw [if_pos h10]
    have hr : recognizedD m = true := by simp [recognizedD, h10]
    rw [hr]
    simp [emap_eq_nie, needs_eq_nie, need_eq_nie, ebind_eq_nie, imgFactor_eq_nie]
  rw [if_neg h10]
  by_cases h11 : (m == "discriminator_unet_fea") = true
  · rw [if_pos h11]
    have hr : recognizedD m = true := by simp [recognizedD, h11]
    rw [hr]
    simp [emap_eq_nie, needs_eq_nie, need_eq_nie, ebind_eq_nie, imgFactor_eq_nie]
  rw [if_neg h11]
  by_cases h12 : (m == "discriminator_switched") = true
  · rw [if_pos h12]
    have hr : recognizedD m = true := by simp [recognizedD, h12]
    rw [hr]
    simp [emap_eq_nie, needs_eq_nie, need_eq_nie, ebind_eq_nie, imgFactor_eq_nie]
  rw [if_neg h12]
  by_cases h13 : (m == "cross_compare_vgg128") = true
  · rw [if_pos h13]
    have hr : recognizedD m = true := by simp [recognizedD, h13]
    rw [hr]
    simp [emap_eq_nie, needs_eq_nie, need_eq_nie, ebind_eq_nie, imgFactor_eq_nie]
  rw [if_neg h13]
  by_cases h14 : (m == "discriminator_refvgg") = true
  · rw [if_pos h14]
    have hr : recognizedD m = true := by simp [recognizedD, h14]
    rw [hr]
    simp [emap_eq_nie, needs_eq_nie, need_eq_nie, ebind_eq_nie, imgFactor_eq_nie]
  rw [if_neg h14]
  by_cases h15 : (m == "psnr_approximator") = true
  · rw [if_pos h15]
    have hr : recognizedD m = true := by simp [recognizedD, h15]
    rw [hr]
    simp [emap_eq_nie, needs_eq_nie, need_eq_nie, ebind_eq_nie, imgFactor_eq_nie]
  rw [if_neg h15]
  by_cases h16 : (m == "stylegan2_discriminator") = true
  · rw [if_pos h16]
    have hr : recognizedD m = true := by simp [recognizedD, h16]
    rw [hr]
    simp [emap_eq_nie, needs_eq_nie, need_eq_nie, ebind_eq_nie, imgFactor_eq_nie]
  rw [if_neg h16]
  by_cases h17 : (m == "stylegan2_unet") = true
  · rw [if_pos h17]
    have hr : recognizedD m = true := by simp [recognizedD, h17]
    rw [hr]
    simp [emap_eq_nie, needs_eq_nie, need_eq_nie, ebind_eq_nie, imgFactor_eq_nie]
  rw [if_neg h17]
  by_cases h18 : (m == "rrdb_disc") = true
  · rw [if_pos h18]
    have hr : recognizedD m = true := by simp [recognizedD, h18]
    rw [hr]
    simp [emap_eq_nie, needs_eq_nie, need_eq_nie, ebind_eq_nie, imgFactor_eq_nie]
  rw [if_neg h18]
  simp only [Bool.not_eq_true] at h1 h2 h3 h4 h5 h6 h7 h8 h9 h10 h11 h12 h13 h14 h15 h16 h17 h18
  have hr : recognizedD m = false := by simp [recognizedD, h1, h2, h3, h4, h5, h6, h7, h8, h9, h10, h11, h12, h13, h14, h15, h16, h17, h18]
  rw [hr]
  simp



theorem define_D_str_ctor
    (m : String) (img_sz : Option Value) (opt_net : Dict) (g : NetD)
    (hok : (define_D_str m img_sz false opt_net) = .ok g) :
    specCtorD m = some g.ctorName := by
  unfold define_D_str at hok
  by_cases h1 : (m == "discriminator_vgg_128") = true
  · rw [if_pos h1] at hok
    unfold specCtorD
    rw [if_pos h1]
    simp only [ebind_eq_ok, Except.ok.injEq] at hok
    obtain ⟨a, -, b, -, c, -, d, -, rfl⟩ := hok
    rfl
  rw [if_neg h1] at hok
  by_cases h2 : (m == "discriminator_vgg_128_gn") = true
  · rw [if_pos h2] at hok
    unfold specCtorD
    rw [if_neg h1, if_pos h2]
    simp only [ebind_eq_ok, Except.ok.injEq] at hok
    obtain ⟨a, -, b, -, c, -, rfl⟩ := hok
    rfl
  rw [if_neg h2] at hok
  by_cases h3 : (m == "discriminator_vgg_128_gn_checkpointed") = true
  · rw [if_pos h3] at hok
    unfold specCtorD
    rw [if_neg h1, if_neg h2, if_pos h3]
    simp only [ebind_eq_ok, Except.ok.injEq] at hok
    obtain ⟨a, -, b, -, c, -, rfl⟩ := hok
    rfl
  rw [if_neg h3] at hok
  by_cases h4 : (m == "stylegan_vgg") = true
  · rw [if_pos h4] at hok
    unfold specCtorD
    rw [if_neg h1, if_neg h2, if_neg h3, if_pos h4]
    simp only [Except.ok.injEq] at hok
    subst hok
    rfl
  rw [if_neg h4] at hok
  by_cases h5 : (m == "discriminator_resnet") = true
  · rw [if_pos h5] at hok
    unfold specCtorD
    rw [if_neg h1, if_neg h2, if_neg h3, if_neg h4, if_pos h5]
    rcases (emap_eq_ok _ _ _).mp hok with ⟨vs, -, rfl⟩
    rfl
  rw [if_neg h5] at hok
  by_cases h6 : (m == "discriminator_resnet_50") = true
  · rw [if_pos h6] at hok
    unfold specCtorD
    rw [if_neg h1, if_neg h2, if_neg h3, if_neg h4, if_neg h5, if_pos h6]
    rcases (emap_eq_ok _ _ _).mp hok with ⟨vs, -, rfl⟩
    rfl
  rw [if_neg h6] at hok
  by_cases h7 : (m == "resnext") = true
  · rw [if_pos h7] at hok
    unfold specCtorD
    rw [if_neg h1, if_neg h2, if_neg h3, if_neg h4, if_neg h5, if_neg h6, if_pos h7]
    simp only [Except.ok.injEq] at hok
    subst hok
    rfl
  rw [if_neg h7] at hok
  by_cases h8 : (m == "biggan_resnet") = true
  · rw [if_pos h8] at hok
    unfold specCtorD
    rw [if_neg h1, if_neg h2, if_neg h3, if_neg h4, if_neg h5, if_neg h6, if_neg h7, if_pos h8]
    simp only [Except.ok.injEq] at hok
    subst hok
    rfl
  rw [if_neg h8] at hok
  by_cases h9 : (m == "discriminator_pix") = true
  · rw [if_pos h9] at hok
    unfold specCtorD
    rw [if_neg h1, if_neg h2, if_neg h3, if_neg h4, if_neg h5, if_neg h6, if_neg h7, if_neg h8, if_pos h9]
    rcases (emap_eq_ok _ _ _).mp hok with ⟨vs, -, rfl⟩
    rfl
  rw [if_neg h9] at hok
  by_cases h10 : (m == "discriminator_unet") = true
  · rw [if_pos h10] at hok
    unfold specCtorD
    rw [if_neg h1, if_neg h2, if_neg h3, if_neg h4, if_neg h5, if_neg h6, if_neg h7, if_neg h8, if_neg h9, if_pos h10]
    rcases (emap_eq_ok _ _ _).mp hok with ⟨vs, -, rfl⟩
    rfl
  rw [if_neg h10] at hok
  by_cases h11 : (m == "discriminator_unet_fea") = true
  · rw [if_pos h11] at hok
    unfold specCtorD
    rw [if_neg h1, if_neg h2, if_neg h3, if_neg h4, if_neg h5, if_neg h6, if_neg h7, if_neg h8, if_neg h9, if_neg h10, if_pos h11]
    rcases (emap_eq_ok _ _ _).mp hok with ⟨vs, -, rfl⟩
    rfl
  rw [if_neg h11] at hok
  by_cases h12 : (m == "discriminator_switched") = true
  · rw [if_pos h12] at hok
    unfold specCtorD
    rw [if_neg h1, if_neg h2, if_neg h3, if_neg h4, if_neg h5, if_neg h6, if_neg h7, if_neg h8, if_neg h9, if_neg h10, if_neg h11, if_pos h12]
    rcases (emap_eq_ok _ _ _).mp hok with ⟨vs, -, rfl⟩
    rfl
  rw [if_neg h12] at hok
  by_cases h13 : (m == "cross_compare_vgg128") = true
  · rw [if_pos h13] at hok
    unfold specCtorD
    rw [if_neg h1, if_neg h2, if_neg h3, if_neg h4, if_neg h5, if_neg h6, if_neg h7, if_neg h8, if_neg h9, if_neg h10, if_neg h11, if_neg h12, if_pos h13]
    simp only [ebind_eq_ok, Except.ok.injEq] at hok
    obtain ⟨a, -, b, -, c, -, rfl⟩ := hok
    rfl
  rw [if_neg h13] at hok
  by_cases h14 : (m == "discriminator_refvgg") = true
  · rw [if_pos h14] at hok
    unfold specCtorD
    rw [if_neg h1, if_neg h2, if_neg h3, if_neg h4, if_neg h5, if_neg h6, if_neg h7, if_neg h8, if_neg h9, if_neg h10, if_neg h11, if_neg h12, if_neg h13, if_pos h14]
    simp only [ebind_eq_ok, Except.ok.injEq] at hok
    obtain ⟨a, -, b, -, c, -, rfl⟩ := hok
    rfl
  rw [if_neg h14] at hok
  by_cases h15 : (m == "psnr_approximator") = true
  · rw [if_pos h15] at hok
    unfold specCtorD
    rw [if_neg h1, if_neg h2, if_neg h3, if_neg h4, if_neg h5, if_neg h6, if_neg h7, if_neg h8, if_neg h9, if_neg h10, if_neg h11, if_neg h12, if_neg h13, if_neg h14, if_pos h15]
    simp only [ebind_eq_ok, Except.ok.injEq] at hok
    obtain ⟨a, -, b, -, rfl⟩ := hok
    rfl
  rw [if_neg h15] at hok
  by_cases h16 : (m == "stylegan2_discriminator") = true
  · rw [if_pos h16] at hok
    unfold specCtorD
    rw [if_neg h1, if_neg h2, if_neg h3, if_neg h4, if_neg h5, if_neg h6, if_neg h7, if_neg h8, if_neg h9, if_neg h10, if_neg h11, if_neg h12, if_neg h13, if_neg h14, if_neg h15, if_pos h16]
    simp only [ebind_eq_ok, Except.ok.injEq] at hok
    obtain ⟨a, -, b, -, c, -, d, -, e, -, rfl⟩ := hok
    rfl
  rw [if_neg h16] at hok
  by_cases h17 : (m == "stylegan2_unet") = true
  · rw [if_pos h17] at hok
    unfold specCtorD
    rw [if_neg h1, if_neg h2, if_neg h3, if_neg h4, if_neg h5, if_neg h6, if_neg h7, if_neg h8, if_neg h9, if_neg h10, if_neg h11, if_neg h12, if_neg h13, if_neg h14, if_neg h15, if_neg h16, if_pos h17]
    simp only [ebind_eq_ok, Except.ok.injEq] at hok
    obtain ⟨a, -, b, -, c, -, d, -, e, -, rfl⟩ := hok
    rfl
  rw [if_neg h17] at hok
  by_cases h18 : (m == "rrdb_disc") = true
  · rw [if_pos h18] at hok
    unfold specCtorD
    rw [if_neg h1, if_neg h2, if_neg h3, if_neg h4, if_neg h5, if_neg h6, if_neg h7, if_neg h8, if_neg h9, if_neg h10, if_neg h11, if_neg h12, if_neg h13, if_neg h14, if_neg h15, if_neg h16, if_neg h17, if_pos h18]
    rcases (emap_eq_ok _ _ _).mp hok with ⟨vs, -, rfl⟩
    rfl
  rw [if_neg h18] at hok
  exact absurd hok (by simp)

end Networks

namespace Networks

/-- `define_G` with an explicit upsample factor and a string
`which_model_G` reaches the dispatch chain directly. -/
theorem define_G_some (opt opt_net : Dict) (sv : Value) (m : String)
    (hwm : dlookup opt_net "which_model_G" = some (Value.str m)) :
    define_G opt opt_net (some sv) = define_G_str m sv opt opt_net := by
  simp only [define_G, resolveScale, hwm, define_G_branch]

/-- `define_D_net` with a string `which_model_D` reaches the dispatch
chain with the possibly overridden image size. -/
theorem define_D_net_str (opt_net : Dict) (img0 : Option Value) (wrap : Bool) (m : String)
    (hwm : dlookup opt_net "which_model_D" = some (Value.str m)) :
    define_D_net opt_net img0 wrap =
      define_D_str m (if containsKey opt_net "image_size" then dlookup opt_net "image_size"
        else img0) wrap opt_net := by
  simp only [define_D_net, hwm, define_D_branch]

theorem define_F_nie (m : String) (bn ft : Bool) (lp : Option String)
    (fl : Option (List Int)) (loaded : List (String × Value)) :
    (define_F m bn ft lp fl loaded = .error .notImplemented) ↔ recognizedF m = false := by
  unfold define_F
  by_cases h1 : (m == "vgg") = true
  · rw [if_pos h1]
    have hr : recognizedF m = true := by simp [recognizedF, h1]
    rw [hr]
    simp [ebind_eq_nie]
  rw [if_neg h1]
  by_cases h2 : (m == "wide_resnet") = true
  · rw [if_pos h2]
    have hr : recognizedF m = true := by simp [recognizedF, h2]
    rw [hr]
    simp [ebind_eq_nie]
  rw [if_neg h2]
  simp only [Bool.not_eq_true] at h1 h2
  have hr : recognizedF m = false := by simp [recognizedF, h1, h2]
  rw [hr]
  simp [ebind_eq_nie]

theorem define_F_ctor (m : String) (bn ft : Bool) (lp : Option String)
    (fl : Option (List Int)) (loaded : List (String × Value)) (f : NetF)
    (hok : define_F m bn ft lp fl loaded = .ok f) :
    specCtorF m ft = some f.arch.ctorName := by
  unfold define_F at hok
  by_cases h1 : (m == "vgg") = true
  · rw [if_pos h1] at hok
    unfold specCtorF
    rw [if_pos h1]
    simp only [ebind_eq_ok, Except.ok.injEq] at hok
    obtain ⟨arch, ha, rfl⟩ := hok
    subst ha
    cases ft <;> rfl
  rw [if_neg h1] at hok
  by_cases h2 : (m == "wide_resnet") = true
  · rw [if_pos h2] at hok
    unfold specCtorF
    rw [if_neg h1, if_pos h2]
    simp only [ebind_eq_ok, Except.ok.injEq] at hok
    obtain ⟨arch, ha, rfl⟩ := hok
    subst ha
    rfl
  rw [if_neg h2] at hok
  exact absurd hok (by simp [ebind])

end Networks

namespace Networks

/-- Claim C2: each factory is a pure string-keyed dispatch failing
exactly on unknown keys.  Conjuncts 1, 3, 5: `define_G`, `define_D_net`
and `define_F` raise `NotImplementedError` if and only if their model
key is unrecognized (for `define_G` the claim presupposes the dispatch
is reached, so the upsample factor is passed explicitly).  Conjuncts 2,
4, 6: on a recognized key, a successfully returned network is the
constructor call mapped to that key (`define_D_net` stated for the
unwrapped `wrap=False` form). -/
theorem C2_factory_dispatch :
    (∀ (opt opt_net : Dict) (sv : Value) (m : String),
        dlookup opt_net "which_model_G" = some (Value.str m) →
        (((define_G opt opt_net (some sv)).1 = .error .notImplemented) ↔
          recognizedG m = false)) ∧
    (∀ (opt opt_net : Dict) (sv : Value) (m : String) (g : NetG),
        dlookup opt_net "which_model_G" = some (Value.str m) →
        (define_G opt opt_net (some sv)).1 = .ok g →
        specCtorG m = some g.ctorName) ∧
    (∀ (opt_net : Dict) (img0 : Option Value) (wrap : Bool) (m : String),
        dlookup opt_net "which_model_D" = some (Value.str m) →
        ((define_D_net opt_net img0 wrap = .error .notImplemented) ↔
          recognizedD m = false)) ∧
    (∀ (opt_net : Dict) (img0 : Option Value) (m : String) (d : NetD),
        dlookup opt_net "which_model_D" = some (Value.str m) →
        define_D_net opt_net img0 false = .ok d →
        specCtorD m = some d.ctorName) ∧
    (∀ (m : String) (bn ft : Bool) (lp : Option String) (fl : Option (List Int))
        (loaded : List (String × Value)),
        ((define_F m bn ft lp fl loaded = .error .notImplemented) ↔
          recognizedF m = false)) ∧
    (∀ (m : String) (bn ft : Bool) (lp : Option String) (fl : Option (List Int))
        (loaded : List (String × Value)) (f : NetF),
        define_F m bn ft lp fl loaded = .ok f →
        specCtorF m ft = some f.arch.ctorName) := by
  refine ⟨?_, ?_, ?_, ?_, ?_, ?_⟩
  · intro opt opt_net sv m hwm
    rw [define_G_some opt opt_net sv m hwm]
    exact define_G_str_nie m sv opt opt_net
  · intro opt opt_net sv m g hwm hok
    rw [define_G_some opt opt_net sv m hwm] at hok
    exact define_G_str_ctor m sv opt opt_net g hok
  · intro opt_net img0 wrap m hwm
    rw [define_D_net_str opt_net img0 wrap m hwm]
    exact define_D_str_nie m _ wrap opt_net
  · intro opt_net img0 m d hwm hok
    rw [define_D_net_str opt_net img0 false m hwm] at hok
    exact define_D_str_ctor m _ opt_net d hok
  · intro m bn ft lp fl loaded
    exact define_F_nie m bn ft lp fl loaded
  · intro m bn ft lp fl loaded f hok
    exact define_F_ctor m bn ft lp fl loaded f hok

/-- Witness for claim C2 at concrete inputs: an unknown generator key
and an unknown discriminator and feature key each yield
`NotImplementedError`, and three recognized keys map to their
constructors. -/
theorem C2_witness :
    (((define_G [("scale", Value.int 4)] [("which_model_G", Value.str "nonsense")]
        (some (Value.int 4))).1 = .error .notImplemented) ↔
      recognizedG "nonsense" = false) ∧
    (specCtorG "mdcn" = some (NetG.MDCN (Value.int 4)).ctorName) ∧
    ((define_D_net [("which_model_D", Value.str "nah")] Option.none false =
        .error .notImplemented) ↔ recognizedD "nah" = false) ∧
    (specCtorD "stylegan_vgg" = some NetD.StyleGanDiscriminator128.ctorName) ∧
    ((define_F "nope" false false Option.none Option.none [] = .error .notImplemented) ↔
      recognizedF "nope" = false) ∧
    (specCtorF "wide_resnet" false =
      some (NetF.mk (FArch.WideResnetFeatureExtractor true) Option.none false
        false).arch.ctorName) := by
  refine ⟨?_, ?_, ?_, ?_, ?_, ?_⟩
  · exact C2_factory_dispatch.1 [("scale", Value.int 4)] _ (Value.int 4) "nonsense" rfl
  · exact C2_factory_dispatch.2.1 []
      [("which_model_G", Value.str "mdcn"), ("scale", Value.int 4)] (Value.int 4) "mdcn"
      (NetG.MDCN (Value.int 4)) rfl rfl
  · exact C2_factory_dispatch.2.2.1 [("which_model_D", Value.str "nah")] Option.none
      false "nah" rfl
  · exact C2_factory_dispatch.2.2.2.1 [("which_model_D", Value.str "stylegan_vgg")]
      Option.none "stylegan_vgg" NetD.StyleGanDiscriminator128 rfl rfl
  · exact C2_factory_dispatch.2.2.2.2.1 "nope" false false Option.none Option.none []
  · exact C2_factory_dispatch.2.2.2.2.2 "wide_resnet" false false Option.none Option.none
      [] (NetF.mk (FArch.WideResnetFeatureExtractor true) Option.none false false) rfl

end Networks

namespace Networks

/-- Claim C9: `define_G` mutates its configuration dictionary exactly in
the `rcan` and `panet` branches.  Conjuncts 1 and 2: for those keys the
dictionary gets `rgb_range = 255` and `n_colors = 3` set in place and
the network is built from the mutated dictionary.  Conjunct 3: every
other recognized key leaves `opt_net` unchanged. -/
theorem C9_define_G_frame :
    (∀ (opt opt_net : Dict) (sv : Value),
        dlookup opt_net "which_model_G" = some (Value.str "rcan") →
        define_G opt opt_net (some sv) =
          (.ok (NetG.RCAN (dset (dset opt_net "rgb_range" (Value.int 255)) "n_colors"
            (Value.int 3))),
           dset (dset opt_net "rgb_range" (Value.int 255)) "n_colors" (Value.int 3))) ∧
    (∀ (opt opt_net : Dict) (sv : Value),
        dlookup opt_net "which_model_G" = some (Value.str "panet") →
        define_G opt opt_net (some sv) =
          (.ok (NetG.PANET (dset (dset opt_net "rgb_range" (Value.int 255)) "n_colors"
            (Value.int 3))),
           dset (dset opt_net "rgb_range" (Value.int 255)) "n_colors" (Value.int 3))) ∧
    (∀ (opt opt_net : Dict) (sv : Value) (m : String),
        dlookup opt_net "which_model_G" = some (Value.str m) →
        recognizedG m = true → m ≠ "rcan" → m ≠ "panet" →
        (define_G opt opt_net (some sv)).2 = opt_net) := by
  refine ⟨?_, ?_, ?_⟩
  · intro opt opt_net sv hwm
    rw [define_G_some opt opt_net sv "rcan" hwm]
    unfold define_G_str
    rw [if_neg (by decide), if_neg (by decide), if_neg (by decide), if_neg (by decide),
      if_pos (by decide)]
  · intro opt opt_net sv hwm
    rw [define_G_some opt opt_net sv "panet" hwm]
    unfold define_G_str
    rw [if_neg (by decide), if_neg (by decide), if_neg (by decide), if_neg (by decide),
      if_neg (by decide), if_pos (by decide)]
  · intro opt opt_net sv m hwm hrec hne1 hne2
    rw [define_G_some opt opt_net sv m hwm]
    exact define_G_str_frame m sv opt opt_net (beq_eq_false_iff_ne.mpr hne1)
      (beq_eq_false_iff_ne.mpr hne2)

/-- Witness for claim C9 at concrete inputs: a `rcan` call appends the
two keys to the dictionary, and an `mdcn` call leaves it unchanged. -/
theorem C9_witness :
    define_G [] [("which_model_G", Value.str "rcan")] (some (Value.int 4)) =
      (.ok (NetG.RCAN (dset (dset [("which_model_G", Value.str "rcan")] "rgb_range"
        (Value.int 255)) "n_colors" (Value.int 3))),
       dset (dset [("which_model_G", Value.str "rcan")] "rgb_range" (Value.int 255))
         "n_colors" (Value.int 3)) ∧
    (define_G [] [("which_model_G", Value.str "mdcn"), ("scale", Value.int 2)]
        (some (Value.int 2))).2 =
      [("which_model_G", Value.str "mdcn"), ("scale", Value.int 2)] :=
  ⟨C9_define_G_frame.1 [] [("which_model_G", Value.str "rcan")] (Value.int 4) rfl,
   C9_define_G_frame.2.2 [] [("which_model_G", Value.str "mdcn"), ("scale", Value.int 2)]
     (Value.int 2) "mdcn" rfl (by decide) (by decide) (by decide)⟩

/-- Claim C3: for a `which_model_G` containing the substring `RRDBNet`,
`define_G` builds an `RRDBNet` whose keyword arguments come from the
dictionary, with `additive_mode` defaulting to `not`, `output_mode` to
`hq_only`, `gc` to `32` and `initial_stride` to `1`, and whose body block
is `RRDBWithBypass` exactly for the key `RRDBNetBypass`, `LambdaRRDB`
exactly for `RRDBNetLambda`, and `RRDB` otherwise; the dictionary is not
mutated. -/
theorem C3_rrdbnet_branch (opt opt_net : Dict) (sv : Value) (m : String)
    (hwm : dlookup opt_net "which_model_G" = some (Value.str m))
    (hsub : strContains m "RRDBNet" = true)
    (v1 v2 v3 v4 v5 : Value)
    (h1 : dlookup opt_net "in_nc" = some v1) (h2 : dlookup opt_net "out_nc" = some v2)
    (h3 : dlookup opt_net "nf" = some v3) (h4 : dlookup opt_net "nb" = some v4)
    (h5 : dlookup opt_net "scale" = some v5) :
    define_G opt opt_net (some sv) =
      (.ok (NetG.RRDBNet v1 v2 v3 v4
        (getDefault opt_net "additive_mode" (Value.str "not"))
        (getDefault opt_net "output_mode" (Value.str "hq_only"))
        (if m == "RRDBNetBypass" then RRDBBlock.RRDBWithBypass
         else if m == "RRDBNetLambda" then RRDBBlock.LambdaRRDB
         else RRDBBlock.RRDB)
        v5 (getDefault opt_net "gc" (Value.int 32))
        (getDefault opt_net "initial_stride" (Value.int 1))),
       opt_net) := by
  have hms : ¬((m == "MSRResNet") = true) := by
    intro h
    rw [eq_of_beq h] at hsub
    exact absurd hsub (by decide)
  rw [define_G_some opt opt_net sv m hwm]
  unfold define_G_str
  rw [if_neg hms, if_pos hsub]
  simp only [need, h1, h2, h3, h4, h5, ebind]

/-- Witness for claim C3 at a concrete input: the `RRDBNetBypass` key
with the five required entries builds the bypass-block RRDBNet with all
defaults. -/
theorem C3_witness :
    define_G [] [("which_model_G", Value.str "RRDBNetBypass"), ("in_nc", Value.int 3),
        ("out_nc", Value.int 3), ("nf", Value.int 64), ("nb", Value.int 23),
        ("scale", Value.int 4)] (some (Value.int 4)) =
      (.ok (NetG.RRDBNet (Value.int 3) (Value.int 3) (Value.int 64) (Value.int 23)
        (Value.str "not") (Value.str "hq_only") RRDBBlock.RRDBWithBypass (Value.int 4)
        (Value.int 32) (Value.int 1)),
       [("which_model_G", Value.str "RRDBNetBypass"), ("in_nc", Value.int 3),
        ("out_nc", Value.int 3), ("nf", Value.int 64), ("nb", Value.int 23),
        ("scale", Value.int 4)]) := by
  rw [C3_rrdbnet_branch [] [("which_model_G", Value.str "RRDBNetBypass"),
    ("in_nc", Value.int 3), ("out_nc", Value.int 3), ("nf", Value.int 64),
    ("nb", Value.int 23), ("scale", Value.int 4)] (Value.int 4) "RRDBNetBypass" rfl
    (by decide) (Value.int 3) (Value.int 3) (Value.int 64) (Value.int 23) (Value.int 4)
    rfl rfl rfl rfl rfl]
  rfl

end Networks

namespace Networks

/-- Claim C4: `define_F` freezes exactly the networks not built for
training.  Conjunct 1: with `for_training=False` the returned network is
in eval mode with `requires_grad` cleared on every named parameter.
Conjunct 2: with `for_training=True` and `which_model='vgg'` a
`TrainableVGGFeatureExtractor` is returned, still in training mode with
no parameter frozen. -/
theorem C4_define_F_freeze :
    (∀ (m : String) (bn : Bool) (lp : Option String) (fl : Option (List Int))
        (loaded : List (String × Value)) (f : NetF),
        define_F m bn false lp fl loaded = .ok f →
        f.training = false ∧ f.requiresGrad = false) ∧
    (∀ (bn : Bool) (lp : Option String) (fl : Option (List Int))
        (loaded : List (String × Value)) (f : NetF),
        define_F "vgg" bn true lp fl loaded = .ok f →
        f.arch = FArch.TrainableVGGFeatureExtractor
          (fl.getD (if bn then [49] else [34])) bn true ∧
        f.training = true ∧ f.requiresGrad = true) := by
  constructor
  · intro m bn lp fl loaded f h
    unfold define_F at h
    by_cases h1 : (m == "vgg") = true
    · rw [if_pos h1] at h
      simp only [ebind_eq_ok, Except.ok.injEq] at h
      obtain ⟨arch, -, rfl⟩ := h
      exact ⟨rfl, rfl⟩
    rw [if_neg h1] at h
    by_cases h2 : (m == "wide_resnet") = true
    · rw [if_pos h2] at h
      simp only [ebind_eq_ok, Except.ok.injEq] at h
      obtain ⟨arch, -, rfl⟩ := h
      exact ⟨rfl, rfl⟩
    rw [if_neg h2] at h
    exact absurd h (by simp [ebind])
  · intro bn lp fl loaded f h
    unfold define_F at h
    rw [if_pos (by decide : (("vgg" : String) == "vgg") = true)] at h
    simp only [ebind_eq_ok, Except.ok.injEq] at h
    obtain ⟨arch, ha, rfl⟩ := h
    subst ha
    refine ⟨?_, rfl, rfl⟩
    cases fl <;> rfl

/-- Witness for claim C4 at concrete inputs: a frozen evaluation-mode
extractor for `for_training=False`, and a trainable unfrozen one for
`for_training=True`. -/
theorem C4_witness :
    ((NetF.mk (FArch.VGGFeatureExtractor [34] false true) Option.none false
        false).training = false ∧
      (NetF.mk (FArch.VGGFeatureExtractor [34] false true) Option.none false
        false).requiresGrad = false) ∧
    ((NetF.mk (FArch.TrainableVGGFeatureExtractor [34] false true) Option.none true
        true).arch = FArch.TrainableVGGFeatureExtractor
          ((Option.none : Option (List Int)).getD (if false then [49] else [34])) false
          true ∧
      (NetF.mk (FArch.TrainableVGGFeatureExtractor [34] false true) Option.none true
        true).training = true ∧
      (NetF.mk (FArch.TrainableVGGFeatureExtractor [34] false true) Option.none true
        true).requiresGrad = true) :=
  ⟨C4_define_F_freeze.1 "vgg" false Option.none Option.none []
      (NetF.mk (FArch.VGGFeatureExtractor [34] false true) Option.none false false) rfl,
   C4_define_F_freeze.2 false Option.none Option.none []
      (NetF.mk (FArch.TrainableVGGFeatureExtractor [34] false true) Option.none true true)
      rfl⟩

end Networks

namespace Networks

theorem dlookup_append (d1 d2 : Dict) (k : String) :
    dlookup (d1 ++ d2) k =
      match dlookup d1 k with
      | some v => some v
      | Option.none => dlookup d2 k := by
  induction d1 with
  | nil => simp [dlookup]
  | cons p t ih =>
    obtain ⟨a, b⟩ := p
    by_cases h : a = k
    · simp [dlookup, h]
    · simp [dlookup, h, ih]

theorem containsKey_append (d1 d2 : Dict) (k : String) :
    containsKey (d1 ++ d2) k = (containsKey d1 k || containsKey d2 k) := by
  unfold containsKey
  rw [dlookup_append]
  cases dlookup d1 k <;> simp

theorem dset_fresh (d : Dict) (k : String) (v : Value)
    (h : containsKey d k = false) : dset d k v = d ++ [(k, v)] := by
  induction d with
  | nil => rfl
  | cons p t ih =>
    obtain ⟨a, b⟩ := p
    have h1 : ¬(a = k) := by
      intro he
      subst he
      simp [containsKey, dlookup] at h
    have h2 : containsKey t k = false := by
      simpa [containsKey, dlookup, h1] using h
    simp only [dset, if_neg h1, List.cons_append]
    rw [ih h2]

theorem foldl_dset_of_fresh (l : List (String × Value)) (acc : Dict)
    (hf : ∀ kv ∈ l, containsKey acc (stripModuleKey kv.1) = false)
    (hnd : (l.map fun kv => stripModuleKey kv.1).Nodup) :
    l.foldl (fun d kv => dset d (stripModuleKey kv.1) kv.2) acc =
      acc ++ l.map (fun kv => (stripModuleKey kv.1, kv.2)) := by
  induction l generalizing acc with
  | nil => simp
  | cons p t ih =>
    simp only [List.foldl_cons, List.map_cons]
    rw [dset_fresh acc _ _ (hf p (by simp))]
    rw [List.map_cons] at hnd
    have hnd1 := (List.nodup_cons.mp hnd).1
    have hnd2 := (List.nodup_cons.mp hnd).2
    rw [ih (acc ++ [(stripModuleKey p.1, p.2)]) ?_ hnd2]
    · simp
    intro kv hkv
    rw [containsKey_append]
    have hx : containsKey acc (stripModuleKey kv.1) = false := hf kv (by simp [hkv])
    have hy : containsKey [(stripModuleKey p.1, p.2)] (stripModuleKey kv.1) = false := by
      have hne : ¬(stripModuleKey p.1 = stripModuleKey kv.1) := by
        intro he
        exact hnd1 (by
          rw [he]
          exact List.mem_map.mpr ⟨kv, hkv, rfl⟩)
      simp [containsKey, dlookup, hne]
    rw [hx, hy]
    rfl

/-- The checkpoint-loading loop builds exactly the key-by-key transformed
dict when the transformed keys do not collide. -/
theorem cleanStateDict_eq_map (l : List (String × Value))
    (hnd : (l.map fun kv => stripModuleKey kv.1).Nodup) :
    cleanStateDict l = l.map fun kv => (stripModuleKey kv.1, kv.2) := by
  unfold cleanStateDict
  rw [foldl_dset_of_fresh l [] (fun kv _ => rfl) hnd]
  simp

/-- Claim C5: `define_fixed_D` transforms the loaded state dict
key-by-key — a key beginning with `module.` loses exactly that
7-character prefix, every other key and all values are unchanged — and
returns the network in eval mode with `requires_grad` cleared everywhere
and `fdisc_weight` set to `opt['weight']`.  (The claim's key-by-key
description presupposes the transformed keys are distinct, which is the
`Nodup` hypothesis; colliding keys would be merged by the
`OrderedDict`.) -/
theorem C5_fixed_D_loading (opt : Dict) (loaded : List (String × Value)) (netD : NetD)
    (w : Value)
    (hD : define_D_net opt Option.none false = .ok netD)
    (hp : containsKey opt "pretrained_path" = true)
    (hw : dlookup opt "weight" = some w)
    (hnd : (loaded.map fun kv => stripModuleKey kv.1).Nodup) :
    define_fixed_D opt loaded =
      .ok (FixedD.mk netD (loaded.map fun kv => (stripModuleKey kv.1, kv.2))
        false false w) := by
  unfold define_fixed_D
  rw [hD]
  unfold containsKey at hp
  obtain ⟨v, hv⟩ := Option.isSome_iff_exists.mp hp
  simp only [ebind, need, hv, hw]
  rw [cleanStateDict_eq_map loaded hnd]

/-- Witness for claim C5 at a concrete input: a two-entry checkpoint with
one `module.`-prefixed key. -/
theorem C5_witness :
    define_fixed_D
      [("which_model_D", Value.str "stylegan_vgg"), ("pretrained_path", Value.str "p"),
       ("weight", Value.int 1)]
      [("module.a", Value.int 7), ("b", Value.int 8)] =
      .ok (FixedD.mk NetD.StyleGanDiscriminator128
        [("a", Value.int 7), ("b", Value.int 8)] false false (Value.int 1)) := by
  rw [C5_fixed_D_loading
    [("which_model_D", Value.str "stylegan_vgg"), ("pretrained_path", Value.str "p"),
     ("weight", Value.int 1)]
    [("module.a", Value.int 7), ("b", Value.int 8)] NetD.StyleGanDiscriminator128
    (Value.int 1) rfl rfl rfl (by decide)]
  rfl

end Networks
